import Mathlib

/-!
# The ANDAO command layer (`packages/cli/src/andao.js`)

A shallow embedding of the `ANDAO` class.  Every method of the class is an `async`
function that talks to deployed contracts through truffle handles, to the file system
and to an IPFS pinner, and prints progress on the console.  The embedding makes that
explicit:

* the outside world (chain, file system, pinner) is a record of typed read functions;
* every external operation appends an `Event` to a chronological trace, so that "which
  transactions were issued, in which order" is a statement about the trace;
* every awaited external operation may reject; whether it does is decided by the
  `rejects` oracle of the state, from the history so far and the operation itself;
* an exception aborts the method and keeps the trace (what was already sent stays sent).
-/

namespace Andao

/-! ## JavaScript values that cross the boundary -/

/-- The JavaScript values that the class passes to contracts or reads out of receipts:
`undefined`, booleans, integers (`BN` instances and number literals), strings
(addresses, hex data, text) and arrays of strings (lists of addresses). -/
inductive Val where
  | undefined
  | bool (b : Bool)
  | num (n : Int)
  | str (s : String)
  | arr (xs : List String)
  deriving DecidableEq, Repr

/-- `ZERO_ADDRESS` of `@aragon/contract-helpers-test`. -/
def ZERO_ADDRESS : String := "0x0000000000000000000000000000000000000000"

/-- `EMPTY_BYTES` of `@aragon/contract-helpers-test`: one zero byte. -/
def EMPTY_BYTES : String := "0x00"

/-- `MAX_UINT192` of `@aragon/contract-helpers-test`: `2^192 - 1`. -/
def MAX_UINT192 : Nat := 2 ^ 192 - 1

/-- `EMPTY_CALLS_SCRIPT` of `@aragon/contract-helpers-test`: the spec id alone. -/
def EMPTY_CALLS_SCRIPT : String := "0x00000001"

/-- A call on a contract handle: the artifact name and address of the handle, the
method, the positional arguments and the `from` of the trailing options object. -/
structure Call where
  contract : String
  address : String
  method : String
  args : List Val
  sender : Option String
  deriving DecidableEq, Repr

/-- One entry of the decoded logs of a receipt. -/
structure LogEntry where
  event : String
  args : List (String × Val)
  deriving DecidableEq, Repr

/-- A transaction receipt: the logs decoded with the ABI of the called contract, and the
raw logs as decoded with an ABI handed to `decodeForAbi`. -/
structure Receipt where
  logs : List LogEntry
  rawLogs : List LogEntry
  deriving DecidableEq, Repr

/-- What the class does to the outside, in the order it does it. -/
inductive Event where
  | instanceAt (contract address : String)
  | view (c : Call)
  | send (c : Call)
  | existsSync (path : String)
  | ipfsUpload (path submitter : String)
  | log (msg : String)
  deriving DecidableEq, Repr

/-- The exceptions a method can end with. -/
inductive Error where
  | rejected (e : Event)
  | typeError (msg : String)
  | error (msg : String)
  deriving DecidableEq, Repr

/-! ## The chain as the class reads it -/

/-- The fields of `Agreement.getSetting` that the class reads. -/
structure Setting where
  arbitrator : String
  aragonAppFeesCashier : String
  title : String

/-- The fields of `Agreement.getCollateralRequirement`. -/
structure CollateralRequirement where
  collateralToken : String
  actionAmount : Nat
  challengeAmount : Nat
  challengeDuration : Nat

/-- The result of `getDisputeFees` and of `getSubscriptionFees`. -/
structure Fees where
  recipient : String
  feeToken : String
  feeAmount : Nat

/-- The views of the deployed contracts that the class calls, as a snapshot.  The first
argument of each field is the address of the contract the view is called on; where the
class reads one field of the answer, the snapshot holds that field.  Token allowances
are not here: they change with the approvals the class sends and live in the state. -/
structure Chain where
  getCurrentSettingId : String → Nat
  getSetting : String → Nat → Setting
  currentCollateralRequirementId : String → String → Nat
  getCollateralRequirement : String → String → Nat → CollateralRequirement
  stakingFactory : String → String
  mustSign : String → String → Bool
  disputeId : String → Val → Val
  getInstance : String → String → String
  lockAllowance : String → String → String → Nat
  getDisputeFees : String → Fees
  getSubscriptionFees : String → String → Fees
  lastPaymentPeriodId : String → String → Nat
  newLastPeriodId : String → String → Nat
  actionId : String → Nat → Nat

/-- A truffle contract handle, `artifacts.require(contract).at(address)`. -/
structure Instance where
  contract : String
  address : String
  deriving DecidableEq, Repr

/-- The entry of `andao.config.js` for the network of the instance. -/
structure Config where
  dao : String
  agent : String
  voting : String
  agreement : String

/-- The fields of an `ANDAO` object: those set by the constructor and the lazily filled
handle caches (`stakingPools` is keyed by token address). -/
structure ANDAO where
  network : String
  config : Config
  stakingPools : List (String × Instance)
  _dao : Option Instance
  _agent : Option Instance
  _voting : Option Instance
  _agreement : Option Instance
  _stakingFactory : Option Instance

/-- The entry of `court.config.js` for one network. -/
structure CourtConfig where
  feeToken : String
  evidenceTerms : Nat
  commitTerms : Nat
  revealTerms : Nat
  appealTerms : Nat
  appealConfirmTerms : Nat
  maxJurorsPerDraftBatch : Nat
  jurorFee : Nat
  draftFee : Nat
  settleFee : Nat
  penaltyPct : Nat
  finalRoundReduction : Nat
  firstRoundJurorsNumber : Nat
  appealStepFactor : Nat
  maxRegularAppealRounds : Nat
  finalRoundLockTerms : Nat
  appealCollateralFactor : Nat
  appealConfirmCollateralFactor : Nat
  finalRoundWeightPrecision : Nat
  minActiveBalance : Nat
  deriving DecidableEq, Repr

/-- `bigExp(x, y)` of `@aragon/contract-helpers-test`: `x * 10^y`. -/
def bigExp (x y : Nat) : Nat := x * 10 ^ y

/-- The constant `DAI` of `court.config.js`. -/
def DAI : String := "0x3af6b2f907f0c55f279e0ed65751984e6cdc4a42"

/-- The table exported by `court.config.js`, indexed by network name; a name that is not
a key gives `undefined`. -/
def courtConfig (network : String) : Option CourtConfig :=
  if network = "rinkeby" then
    some {
      feeToken := DAI
      evidenceTerms := 21
      commitTerms := 6
      revealTerms := 6
      appealTerms := 6
      appealConfirmTerms := 6
      maxJurorsPerDraftBatch := 81
      jurorFee := bigExp 40 18
      draftFee := bigExp 6 18
      settleFee := bigExp 4 18
      penaltyPct := 1000
      finalRoundReduction := 5000
      firstRoundJurorsNumber := 3
      appealStepFactor := 3
      maxRegularAppealRounds := 4
      finalRoundLockTerms := 21
      appealCollateralFactor := 30000
      appealConfirmCollateralFactor := 20000
      finalRoundWeightPrecision := 1000
      minActiveBalance := bigExp 100 18 }
  else none

/-- The functions of `./encoder`, a module of the repository that is not part of the
sources at hand: each builds an EVM script (a hex string) from its arguments. -/
structure Encoder where
  encodeTokenTransfer : String → Val → Val → Val → String
  encodeAppUpgrade : String → Val → Val → String
  encodeAgreementChange : String → String → Bool → String → String → String
  encodeVotingSupportChange : String → Val → String
  encodeCourtConfigChange : String → String → Option CourtConfig → Val → String

/-- Everything outside the object that a method only reads.
`rejects h e` says that operation `e`, attempted after history `h`, rejects;
`receipt h c` is the receipt of transaction `c` sent after history `h`;
`cid p a` is what `ipfsUpload(p, a)` of `./ipfs-pinner` resolves to;
`cwd` is `process.cwd()` and `fileExists` is `fs.existsSync`. -/
structure Env where
  chain : Chain
  fileExists : String → Bool
  cwd : String
  cid : String → String → String
  encoder : Encoder
  rejects : List Event → Event → Bool
  receipt : List Event → Call → Receipt

/-- The object, the world around it, the token allowances (token, owner, spender) and the
trace of what has been done so far. -/
structure State where
  self : ANDAO
  env : Env
  allowance : String → String → String → Nat
  trace : List Event

/-- The state after one more recorded operation. -/
def State.push (s : State) (e : Event) : State := { s with trace := s.trace ++ [e] }

/-- The state after the fields of the object changed. -/
def State.setSelf (s : State) (o : ANDAO) : State := { s with self := o }

/-- The state after an allowance was set. -/
def State.setAllowance (s : State) (token owner spender : String) (value : Nat) : State :=
  { s with allowance := fun t o p =>
      if t = token ∧ o = owner ∧ p = spender then value else s.allowance t o p }

/-! ## The monad of `async` methods -/

/-- An `async` computation: from a state to a value or an exception, and the state
reached. -/
def M (α : Type) : Type := State → Except Error α × State

/-- Sequencing of `await`: an exception skips the rest. -/
def M.bind {α β : Type} (m : M α) (f : α → M β) : M β := fun s =>
  match m s with
  | (Except.ok a, s1) => f a s1
  | (Except.error e, s1) => (Except.error e, s1)

instance : Monad M where
  pure a := fun s => (Except.ok a, s)
  bind := M.bind

instance : LawfulMonad M := LawfulMonad.mk' M
  (by
    intro α x
    funext s
    show M.bind x (fun a => pure (id a)) s = x s
    unfold M.bind
    rcases h : x s with ⟨r, s1⟩
    cases r <;> rfl)
  (by intros; rfl)
  (by
    intro α β γ x f g
    funext s
    show M.bind (M.bind x f) g s = M.bind x (fun a => M.bind (f a) g) s
    unfold M.bind
    rcases h : x s with ⟨r, s1⟩
    cases r <;> rfl)

/-- Run a computation from a state. -/
def M.run {α : Type} (m : M α) (s : State) : Except Error α × State := m s

/-- Raise an exception. -/
def raise {α : Type} (e : Error) : M α := fun s => (Except.error e, s)

/-- A synchronous function that may throw, called from an `async` method. -/
def liftExcept {α : Type} (r : Except Error α) : M α := fun s => (r, s)

/-- Read the state. -/
def getState : M State := fun s => (Except.ok s, s)

/-- Assign the fields of the object. -/
def setSelf (o : ANDAO) : M Unit := fun s => (Except.ok (), s.setSelf o)

/-- Record an allowance set by a mined approval. -/
def setAllowance (token owner spender : String) (value : Nat) : M Unit := fun s =>
  (Except.ok (), s.setAllowance token owner spender value)

/-- An operation that cannot reject: it is recorded. -/
def emit (e : Event) : M Unit := fun s => (Except.ok (), s.push e)

/-- An awaited operation: it is recorded, and rejects when the oracle says so. -/
def attempt (e : Event) : M Unit := fun s =>
  if s.env.rejects s.trace e then (Except.error (Error.rejected e), s.push e)
  else (Except.ok (), s.push e)

/-- Console output, `console.log(msg)`. -/
def consoleLog (msg : String) : M Unit := emit (Event.log msg)

/-- A view call: recorded, may reject, and answers from the snapshot. -/
def view {α : Type} (c : Call) (answer : Chain → α) : M α := do
  attempt (Event.view c)
  let s ← getState
  pure (answer s.env.chain)

/-- A transaction: recorded, may reject, and answers with its receipt. -/
def send (c : Call) : M Receipt := do
  let s ← getState
  attempt (Event.send c)
  pure (s.env.receipt s.trace c)

/-! ## Library functions the class imports -/

/-- What a template literal prints for a value (`String(v)`). -/
def Val.toStr : Val → String
  | Val.undefined => "undefined"
  | Val.bool b => if b then "true" else "false"
  | Val.num n => toString n
  | Val.str s => s
  | Val.arr xs => ",".intercalate xs

/-- `getEventArgument(receipt, event, arg, { decodeForAbi })` of
`@aragon/contract-helpers-test`: the argument `arg` of the first log named `event`
(`undefined` when the log has no such argument); reading `.args` of a missing log is a
`TypeError`. -/
def getEventArgument (receipt : Receipt) (event arg : String) (decodeForAbi : Bool) :
    Except Error Val :=
  match (if decodeForAbi then receipt.rawLogs else receipt.logs).filter (fun l => l.event = event) with
  | [] => Except.error (Error.typeError "Cannot read property 'args' of undefined")
  | l :: _ => Except.ok ((l.args.lookup arg).getD Val.undefined)

/-- The UTF-8 bytes of a character. -/
def utf8Bytes (c : Char) : List Nat :=
  let n := c.toNat
  if n < 128 then [n]
  else if n < 2048 then [192 + n / 64, 128 + n % 64]
  else if n < 65536 then [224 + n / 4096, 128 + n / 64 % 64, 128 + n % 64]
  else [240 + n / 262144, 128 + n / 4096 % 64, 128 + n / 64 % 64, 128 + n % 64]

/-- A hexadecimal digit. -/
def hexDigit (n : Nat) : Char := if n < 10 then Char.ofNat (48 + n) else Char.ofNat (87 + n)

/-- `utf8ToHex(str)` of `web3-utils`: the UTF-8 bytes of `str`, without the zero bytes
at either end, two hexadecimal digits each, after `0x`. -/
def utf8ToHex (str : String) : String :=
  let bytes := str.toList.flatMap utf8Bytes
  let bytes := ((bytes.dropWhile (fun b => b = 0)).reverse.dropWhile (fun b => b = 0)).reverse
  "0x" ++ String.mk (bytes.flatMap (fun b => [hexDigit (b / 16), hexDigit (b % 16)]))

/-- `str.endsWith(suffix)`. -/
def endsWith (str suffix : String) : Bool := suffix.toList.isSuffixOf str.toList

/-- The segments of a path between its slashes. -/
def splitSlash : List Char → List (List Char)
  | [] => [[]]
  | c :: cs =>
    if c = '/' then [] :: splitSlash cs
    else match splitSlash cs with
      | [] => [[c]]
      | seg :: rest => (c :: seg) :: rest

/-- `normalizeString` of Node's `path` on the segments of a path: empty and `.` segments
go, `..` removes the segment before it (and is kept only above the root of a relative
path).  The segments kept so far are in `acc`, last first. -/
def normalizeSegments (allowAboveRoot : Bool) : List (List Char) → List (List Char) → List (List Char)
  | [], acc => acc.reverse
  | seg :: rest, acc =>
    if seg = [] ∨ seg = ['.'] then normalizeSegments allowAboveRoot rest acc
    else if seg = ['.', '.'] then
      match acc with
      | [] => normalizeSegments allowAboveRoot rest (if allowAboveRoot then [seg] else [])
      | top :: below =>
        if top = ['.', '.'] then normalizeSegments allowAboveRoot rest (seg :: acc)
        else normalizeSegments allowAboveRoot rest below
    else normalizeSegments allowAboveRoot rest (seg :: acc)

/-- `path.resolve(cwd, p)` of Node (POSIX), where `cwd` is `process.cwd()`: the arguments
are taken from the right until an absolute one is found, the working directory last. -/
def pathResolve (cwd p : String) : String :=
  let step := fun (acc : String × Bool) (part : String) =>
    if acc.2 ∨ part = "" then acc else (part ++ "/" ++ acc.1, part.toList.head? = some '/')
  let joined := [p, cwd, cwd].foldl step ("", false)
  let segments := normalizeSegments (!joined.2) (splitSlash joined.1.toList) []
  let resolved := "/".intercalate (segments.map String.mk)
  if joined.2 then "/" ++ resolved else if resolved = "" then "." else resolved

/-- `ipfsUpload(file, submitter)` of `./ipfs-pinner`, a module of the repository that is
not part of the sources at hand: an awaited upload that resolves to a CID. -/
def ipfsUpload (file submitter : String) : M String := do
  attempt (Event.ipfsUpload file submitter)
  let s ← getState
  pure (s.env.cid file submitter)

/-- `fs.existsSync(path)`. -/
def existsSync (path : String) : M Bool := do
  emit (Event.existsSync path)
  let s ← getState
  pure (s.env.fileExists path)

/-! ## Contract methods used by the class -/

/-- A view call on a handle. -/
def Instance.call (i : Instance) (method : String) (args : List Val) : Call :=
  ⟨i.contract, i.address, method, args, none⟩

/-- A transaction on a handle, with the `from` of its options when it has one. -/
def Instance.tx (i : Instance) (method : String) (args : List Val) (sender : Option String) : Call :=
  ⟨i.contract, i.address, method, args, sender⟩

/-- The view `allowance(owner, spender)` of a token. -/
def Instance.allowance (token : Instance) (owner spender : String) : M Nat := do
  attempt (Event.view (token.call "allowance" [Val.str owner, Val.str spender]))
  let s ← getState
  pure (s.allowance token.address owner spender)

/-- The transaction `approve(spender, value, { from })` of a token; once mined, a standard
token holds `value` as the allowance of `spender` over the tokens of `from`. -/
def Instance.approve (token : Instance) (spender : String) (value : Nat) (sender : String) :
    M Receipt := do
  let receipt ← send (token.tx "approve" [Val.str spender, Val.num value] (some sender))
  setAllowance token.address sender spender value
  pure receipt

/-- The view `getCurrentSettingId()` of the agreement. -/
def Instance.getCurrentSettingId (agreement : Instance) : M Nat :=
  view (agreement.call "getCurrentSettingId" []) (fun ch => ch.getCurrentSettingId agreement.address)

/-- The view `getSetting(settingId)` of the agreement. -/
def Instance.getSetting (agreement : Instance) (settingId : Nat) : M Setting :=
  view (agreement.call "getSetting" [Val.num settingId])
    (fun ch => ch.getSetting agreement.address settingId)

/-- The view `getDisputableInfo(disputable)` of the agreement, field
`currentCollateralRequirementId`. -/
def Instance.getDisputableInfo (agreement : Instance) (disputable : String) : M Nat :=
  view (agreement.call "getDisputableInfo" [Val.str disputable])
    (fun ch => ch.currentCollateralRequirementId agreement.address disputable)

/-- The view `getCollateralRequirement(disputable, id)` of the agreement. -/
def Instance.getCollateralRequirement (agreement : Instance) (disputable : String) (id : Nat) :
    M CollateralRequirement :=
  view (agreement.call "getCollateralRequirement" [Val.str disputable, Val.num id])
    (fun ch => ch.getCollateralRequirement agreement.address disputable id)

/-- The view `stakingFactory()` of the agreement. -/
def Instance.stakingFactory (agreement : Instance) : M String :=
  view (agreement.call "stakingFactory" []) (fun ch => ch.stakingFactory agreement.address)

/-- The view `getSigner(signer)` of the agreement, field `mustSign`. -/
def Instance.getSigner (agreement : Instance) (signer : String) : M Bool :=
  view (agreement.call "getSigner" [Val.str signer]) (fun ch => ch.mustSign agreement.address signer)

/-- The view `getChallenge(challengeId)` of the agreement, field `disputeId`. -/
def Instance.getChallenge (agreement : Instance) (challengeId : Val) : M Val :=
  view (agreement.call "getChallenge" [challengeId]) (fun ch => ch.disputeId agreement.address challengeId)

/-- The transaction `sign(settingId, { from })` of the agreement. -/
def Instance.sign (agreement : Instance) (settingId : Nat) (sender : String) : M Receipt :=
  send (agreement.tx "sign" [Val.num settingId] (some sender))

/-- The transaction `disputeAction(actionId, finishedEvidence, { from })` of the agreement. -/
def Instance.disputeAction (agreement : Instance) (actionId : Nat) (finished : Bool)
    (sender : String) : M Receipt :=
  send (agreement.tx "disputeAction" [Val.num actionId, Val.bool finished] (some sender))

/-- The view `getInstance(token)` of the staking factory. -/
def Instance.getInstance (factory : Instance) (token : String) : M String :=
  view (factory.call "getInstance" [Val.str token]) (fun ch => ch.getInstance factory.address token)

/-- The transaction `getOrCreateInstance(token)` of the staking factory (no `from`). -/
def Instance.getOrCreateInstance (factory : Instance) (token : String) : M Receipt :=
  send (factory.tx "getOrCreateInstance" [Val.str token] none)

/-- The view `getLock(user, lockManager)` of a staking pool, field `allowance`. -/
def Instance.getLock (staking : Instance) (user lockManager : String) : M Nat :=
  view (staking.call "getLock" [Val.str user, Val.str lockManager])
    (fun ch => ch.lockAllowance staking.address user lockManager)

/-- The transaction `allowManager(lockManager, allowance, data, { from })` of a staking
pool. -/
def Instance.allowManager (staking : Instance) (lockManager : String) (allowance : Nat)
    (data sender : String) : M Receipt :=
  send (staking.tx "allowManager" [Val.str lockManager, Val.num allowance, Val.str data] (some sender))

/-- The transaction `stake(amount, data, { from })` of a staking pool. -/
def Instance.stake (staking : Instance) (amount : Nat) (data sender : String) : M Receipt :=
  send (staking.tx "stake" [Val.num amount, Val.str data] (some sender))

/-- The view `getDisputeFees()` of the arbitrator. -/
def Instance.getDisputeFees (arbitrator : Instance) : M Fees :=
  view (arbitrator.call "getDisputeFees" []) (fun ch => ch.getDisputeFees arbitrator.address)

/-- The view `getSubscriptionFees(subscriber)` of the arbitrator. -/
def Instance.getSubscriptionFees (arbitrator : Instance) (subscriber : String) : M Fees :=
  view (arbitrator.call "getSubscriptionFees" [Val.str subscriber])
    (fun ch => ch.getSubscriptionFees arbitrator.address subscriber)

/-- The view `getSubscriber(subscriber)` of the subscriptions, field `lastPaymentPeriodId`. -/
def Instance.getSubscriber (subscriptions : Instance) (subscriber : String) : M Nat :=
  view (subscriptions.call "getSubscriber" [Val.str subscriber])
    (fun ch => ch.lastPaymentPeriodId subscriptions.address subscriber)

/-- The view `getOwedFeesDetails(subscriber)` of the subscriptions, field `newLastPeriodId`. -/
def Instance.getOwedFeesDetails (subscriptions : Instance) (subscriber : String) : M Nat :=
  view (subscriptions.call "getOwedFeesDetails" [Val.str subscriber])
    (fun ch => ch.newLastPeriodId subscriptions.address subscriber)

/-- The transaction `payFees(subscriber, periods, { from })` of the subscriptions. -/
def Instance.payFees (subscriptions : Instance) (subscriber : String) (periods : Int)
    (sender : String) : M Receipt :=
  send (subscriptions.tx "payFees" [Val.str subscriber, Val.num periods] (some sender))

/-- The view `getVote(voteId)` of the voting app, field `actionId`. -/
def Instance.getVote (voting : Instance) (voteId : Nat) : M Nat :=
  view (voting.call "getVote" [Val.num voteId]) (fun ch => ch.actionId voting.address voteId)

/-- The transaction `vote(voteId, supports, { from })` of the voting app. -/
def Instance.vote (voting : Instance) (voteId : Nat) (supports : Bool) (sender : String) :
    M Receipt :=
  send (voting.tx "vote" [Val.num voteId, Val.bool supports] (some sender))

/-- The transaction `voteOnBehalfOf(voteId, supports, voters, { from })` of the voting app. -/
def Instance.voteOnBehalfOf (voting : Instance) (voteId : Nat) (supports : Bool)
    (voters : List String) (sender : String) : M Receipt :=
  send (voting.tx "voteOnBehalfOf" [Val.num voteId, Val.bool supports, Val.arr voters] (some sender))

/-- The transaction `newVote(script, context, { from })` of the voting app. -/
def Instance.newVote (voting : Instance) (script context sender : String) : M Receipt :=
  send (voting.tx "newVote" [Val.str script, Val.str context] (some sender))

/-! ## Methods of the class -/

/-- Assign some fields of the object. -/
def modifySelf (f : ANDAO → ANDAO) : M Unit := do
  let s ← getState
  setSelf (f s.self)

/-- The method `_getInstance(contract, address)`: `artifacts.require(contract).at(address)`. -/
def _getInstance (contract address : String) : M Instance := do
  attempt (Event.instanceAt contract address)
  pure ⟨contract, address⟩

/-- The method `dao()`. -/
def dao : M Instance := do
  let s ← getState
  match s.self._dao with
  | some cached => pure cached
  | none =>
    let created ← _getInstance "Kernel" s.self.config.dao
    modifySelf (fun o => { o with _dao := some created })
    pure created

/-- The method `agent()`. -/
def agent : M Instance := do
  let s ← getState
  match s.self._agent with
  | some cached => pure cached
  | none =>
    let created ← _getInstance "Agent" s.self.config.agent
    modifySelf (fun o => { o with _agent := some created })
    pure created

/-- The method `voting()`. -/
def voting : M Instance := do
  let s ← getState
  match s.self._voting with
  | some cached => pure cached
  | none =>
    let created ← _getInstance "DisputableVoting" s.self.config.voting
    modifySelf (fun o => { o with _voting := some created })
    pure created

/-- The method `agreement()`. -/
def agreement : M Instance := do
  let s ← getState
  match s.self._agreement with
  | some cached => pure cached
  | none =>
    let created ← _getInstance "Agreement" s.self.config.agreement
    modifySelf (fun o => { o with _agreement := some created })
    pure created

/-- The method `setting()`. -/
def setting : M Setting := do
  let agreement ← agreement
  let settingId ← agreement.getCurrentSettingId
  agreement.getSetting settingId

/-- What `getDisputeFees()` returns. -/
structure DisputeFees where
  feeToken : Instance
  feeAmount : Nat

/-- The method `getDisputeFees()`. -/
def getDisputeFees : M DisputeFees := do
  let setting ← setting
  let arbitrator ← _getInstance "IArbitrator" setting.arbitrator
  let fees ← arbitrator.getDisputeFees
  let feeToken ← _getInstance "ERC20" fees.feeToken
  pure ⟨feeToken, fees.feeAmount⟩

/-- What `collateralRequirement()` returns. -/
structure Collateral where
  collateralToken : Instance
  actionCollateral : Nat
  challengeCollateral : Nat
  challengeDuration : Nat

/-- The method `collateralRequirement()`. -/
def collateralRequirement : M Collateral := do
  let agreement ← agreement
  let s ← getState
  let currentCollateralRequirementId ← agreement.getDisputableInfo s.self.config.voting
  let requirement ← agreement.getCollateralRequirement s.self.config.voting
    currentCollateralRequirementId
  let collateralToken ← _getInstance "ERC20" requirement.collateralToken
  pure ⟨collateralToken, requirement.actionAmount, requirement.challengeAmount,
    requirement.challengeDuration⟩

/-- The method `stakingFactory()`. -/
def stakingFactory : M Instance := do
  let s ← getState
  match s.self._stakingFactory with
  | some cached => pure cached
  | none =>
    let agreement ← agreement
    let address ← agreement.stakingFactory
    let created ← _getInstance "StakingFactory" address
    modifySelf (fun o => { o with _stakingFactory := some created })
    pure created

/-- The method `stakingPool(token)`.  The address read from the `NewStaking` log is a
value of the receipt; `at` rejects what is not a string. -/
def stakingPool (token : Instance) : M Instance := do
  let s ← getState
  match s.self.stakingPools.lookup token.address with
  | some cached => pure cached
  | none =>
    let stakingFactory ← stakingFactory
    let found ← stakingFactory.getInstance token.address
    let stakingAddress ←
      if found = ZERO_ADDRESS then do
        let receipt ← stakingFactory.getOrCreateInstance token.address
        liftExcept (getEventArgument receipt "NewStaking" "instance" false)
      else pure (Val.str found)
    let created ←
      match stakingAddress with
      | Val.str address => _getInstance "Staking" address
      | other => raise (Error.error ("Invalid address passed to Staking.at(): " ++ other.toStr))
    modifySelf (fun o => { o with stakingPools := (token.address, created) :: o.stakingPools })
    pure created

/-- The method `_approveToken(token, from, to, amount)`. -/
def _approveToken (token : Instance) (fromAddr toAddr : String) (amount : Nat) : M Unit := do
  let allowance ← token.allowance fromAddr toAddr
  if allowance ≥ amount then return
  if allowance > 0 then
    let _ ← token.approve toAddr 0 fromAddr
  let newAllowance := amount + allowance
  let _ ← token.approve toAddr newAllowance fromAddr

/-- The method `sign(signer)`. -/
def sign (signer : String) : M Val := do
  let agreement ← agreement
  let mustSign ← agreement.getSigner signer
  if mustSign then
    consoleLog ("Signing the agreement for " ++ signer ++ "...")
    let currentSettingId ← agreement.getCurrentSettingId
    let _ ← agreement.sign currentSettingId signer
    consoleLog "Agreement signed!"
  else
    consoleLog "Signer is up to date!"
  consoleLog "Allowing Agreement as a lock manager..."
  let collateral ← collateralRequirement
  let staking ← stakingPool collateral.collateralToken
  let allowance ← staking.getLock signer agreement.address
  if allowance = 0 then
    let _ ← staking.allowManager agreement.address MAX_UINT192 EMPTY_BYTES signer
    consoleLog "Agreement allowed!"
  else
    consoleLog "Agreement already allowed as a lock manager!"
  pure Val.undefined

/-- `str.toLowerCase()` on the letters `A`..`Z`; JavaScript also maps letters outside
ASCII, none of them to a letter of `true` or `false`, so both agree on which strings
become `true` or `false`. -/
def toLowerCase (str : String) : String := String.mk (str.toList.map Char.toLower)

/-- The method `toString()` of a value; `undefined` has none. -/
def Val.toStringMethod : Val → Except Error String
  | Val.undefined => Except.error (Error.typeError "Cannot read property 'toString' of undefined")
  | v => Except.ok v.toStr

/-- The method `_castSupport(rawSupport)`: a boolean is returned as it is, any other
value goes through `toString().toLowerCase()`. -/
def _castSupport : Val → Except Error Bool
  | Val.bool b => Except.ok b
  | rawSupport =>
    match rawSupport.toStringMethod with
    | Except.error e => Except.error e
    | Except.ok str =>
      let support := toLowerCase str
      if support ≠ "true" ∧ support ≠ "false" then
        Except.error (Error.error "Support value not valid, please use \"true\" or \"false\"")
      else Except.ok (support = "true")

/-- The method `vote(voteId, supports, voter)`. -/
def vote (voteId : Nat) (supports : Val) (voter : String) : M Receipt := do
  consoleLog "Voting..."
  let voting ← voting
  let support ← liftExcept (_castSupport supports)
  voting.vote voteId support voter

/-- The method `delegateVote(voteId, supports, voters, representative)`. -/
def delegateVote (voteId : Nat) (supports : Val) (voters : List String)
    (representative : String) : M Receipt := do
  consoleLog "Delegate voting..."
  let voting ← voting
  let support ← liftExcept (_castSupport supports)
  voting.voteOnBehalfOf voteId support voters representative

/-- The truth value of `justificationFile`: a path, or `undefined`. -/
def truthyPath : Option String → Bool
  | none => false
  | some file => file ≠ ""

/-- The method `_loadJustification(justification, submitter)`. -/
def _loadJustification (justification submitter : String) : M String := do
  if endsWith justification ".md" then
    consoleLog ("Uploading justification file to IPFS: " ++ justification)
    let s ← getState
    let justificationPath := pathResolve s.env.cwd justification
    let atResolved ← existsSync justificationPath
    let justificationFile ←
      if atResolved then pure (some justificationPath)
      else do
        let atRaw ← existsSync justification
        pure (if atRaw then some justification else none)
    if !truthyPath justificationFile then
      raise (Error.error ("Could not load justification file path " ++ justification))
    else
      let cid ← ipfsUpload (justificationFile.getD "") submitter
      consoleLog ("Uploaded justification to IPFS " ++ cid)
      pure (utf8ToHex ("ipfs:" ++ cid))
  else
    consoleLog ("Sending justification as plain text: " ++ justification)
    pure (utf8ToHex justification)

/-- The method `_loadAgreement(content, submitter)`. -/
def _loadAgreement (content submitter : String) : M String := do
  if !endsWith content ".md" then
    raise (Error.error "Cannot upload a non-markdown agreement file")
  else
    consoleLog ("Uploading agreement file to IPFS: " ++ content)
    let s ← getState
    let contentPath := pathResolve s.env.cwd content
    let atResolved ← existsSync contentPath
    let contentFile ←
      if atResolved then pure (some contentPath)
      else do
        let atRaw ← existsSync content
        pure (if atRaw then some content else none)
    if !truthyPath contentFile then
      raise (Error.error ("Could not load agreement file path " ++ content))
    else
      let cid ← ipfsUpload (contentFile.getD "") submitter
      consoleLog ("Uploaded agreement file to IPFS " ++ cid)
      pure (utf8ToHex ("ipfs:" ++ cid))

/-- The method `newVote(script, rawJustification, submitter)`.  The body has no `return`:
the promise resolves to `undefined`. -/
def newVote (script rawJustification submitter : String) : M Val := do
  let collateral ← collateralRequirement
  if collateral.actionCollateral > 0 then
    consoleLog "Staking action collateral..."
    let staking ← stakingPool collateral.collateralToken
    _approveToken collateral.collateralToken submitter staking.address collateral.actionCollateral
    let _ ← staking.stake collateral.actionCollateral EMPTY_BYTES submitter
  consoleLog "Creating proposal..."
  let voting ← voting
  let justification ← _loadJustification rawJustification submitter
  let receipt ← voting.newVote script justification submitter
  let voteId ← liftExcept (getEventArgument receipt "StartVote" "voteId" false)
  consoleLog ("Created vote with proposal ID #" ++ voteId.toStr ++ "!")
  if script ≠ EMPTY_CALLS_SCRIPT then
    consoleLog ("\nRemember script submitted for future execution: " ++ script)
  pure Val.undefined

/-- The method `newPoll(question, submitter)`. -/
def newPoll (question submitter : String) : M Val := do
  consoleLog "Creating poll..."
  newVote EMPTY_CALLS_SCRIPT question submitter

/-- The method `newTokenTransfer(token, recipient, amount, justification, submitter)`. -/
def newTokenTransfer (token recipient amount : Val) (justification submitter : String) :
    M Val := do
  consoleLog "Creating finance transfer proposal..."
  let agent ← agent
  let s ← getState
  let script := s.env.encoder.encodeTokenTransfer agent.address token recipient amount
  newVote script justification submitter

/-- The method `upgradeApp(appId, base, justification, submitter)`. -/
def upgradeApp (appId base : Val) (justification submitter : String) : M Val := do
  consoleLog ("Creating a proposal to upgrade app " ++ appId.toStr ++ " to base address "
    ++ base.toStr ++ "...")
  let s ← getState
  let script := s.env.encoder.encodeAppUpgrade s.self.config.dao appId base
  newVote script justification submitter

/-- The method `changeAgreement(rawContent, justification, submitter)`. -/
def changeAgreement (rawContent justification submitter : String) : M Val := do
  consoleLog "Creating a proposal to change the agreement version..."
  let agreement ← agreement
  let current ← setting
  let content ← _loadAgreement rawContent submitter
  let s ← getState
  let script := s.env.encoder.encodeAgreementChange agreement.address current.arbitrator
    (current.aragonAppFeesCashier ≠ ZERO_ADDRESS) current.title content
  newVote script justification submitter

/-- The method `changeVotingSupport(support, justification, submitter)`. -/
def changeVotingSupport (support : Val) (justification submitter : String) : M Val := do
  consoleLog "Creating a proposal to change the voting required support..."
  let voting ← voting
  let s ← getState
  let script := s.env.encoder.encodeVotingSupportChange voting.address support
  newVote script justification submitter

/-- The method `changeCourtSettings(termId, justification, submitter)`. -/
def changeCourtSettings (termId : Val) (justification submitter : String) : M Val := do
  consoleLog "Submitting proposal to change Aragon Court config..."
  let agent ← agent
  let current ← setting
  let s ← getState
  let script := s.env.encoder.encodeCourtConfigChange agent.address current.arbitrator
    (courtConfig s.self.network) termId
  newVote script justification submitter

/-- The method `dispute(voteId, submitter)`. -/
def dispute (voteId : Nat) (submitter : String) : M Val := do
  consoleLog "Approving dispute fees..."
  let agreement ← agreement
  let disputeFees ← getDisputeFees
  _approveToken disputeFees.feeToken submitter agreement.address disputeFees.feeAmount
  consoleLog "Paying subscription fees..."
  let current ← setting
  let arbitrator ← _getInstance "IArbitrator" current.arbitrator
  let subscription ← arbitrator.getSubscriptionFees agreement.address
  if subscription.feeAmount > 0 then
    let subscriptionFeeToken ← _getInstance "ERC20" subscription.feeToken
    _approveToken subscriptionFeeToken submitter subscription.recipient subscription.feeAmount
    let subscriptions ← _getInstance "CourtSubscriptions" subscription.recipient
    let lastPaymentPeriodId ← subscriptions.getSubscriber agreement.address
    let newLastPeriodId ← subscriptions.getOwedFeesDetails agreement.address
    let periods : Int :=
      if lastPaymentPeriodId = 0 then 1 else (newLastPeriodId : Int) - (lastPaymentPeriodId : Int)
    let _ ← subscriptions.payFees agreement.address periods submitter
  consoleLog "Disputing action..."
  let voting ← voting
  let actionId ← voting.getVote voteId
  let receipt ← agreement.disputeAction actionId true submitter
  let challengeId ← liftExcept (getEventArgument receipt "ActionDisputed" "challengeId" true)
  let disputeId ← agreement.getChallenge challengeId
  consoleLog ("Disputed proposal #" ++ toString voteId ++ " (dispute #" ++ disputeId.toStr ++ ")!")
  pure Val.undefined

/-! ## The events the claims speak about -/

/-- The allowance read of `_approveToken`. -/
def allowanceRead (token : Instance) (owner spender : String) : Event :=
  Event.view (token.call "allowance" [Val.str owner, Val.str spender])

/-- The approval transaction of `value` to `spender` sent from `owner`. -/
def approval (token : Instance) (owner spender : String) (value : Nat) : Event :=
  Event.send (token.tx "approve" [Val.str spender, Val.num value] (some owner))

/-- Whether an event is a transaction. -/
def Event.isSend : Event → Bool
  | Event.send _ => true
  | _ => false

/-- The handle that `agreement()` yields: the cached one, or one for the configured
address. -/
def ANDAO.agreementHandle (o : ANDAO) : Instance :=
  match o._agreement with
  | some cached => cached
  | none => ⟨"Agreement", o.config.agreement⟩

/-- The handle that `voting()` yields: the cached one, or one for the configured
address. -/
def ANDAO.votingHandle (o : ANDAO) : Instance :=
  match o._voting with
  | some cached => cached
  | none => ⟨"DisputableVoting", o.config.voting⟩

/-- Whether an event is an operation on the outside (a contract call, a file-system check
or an upload) rather than the creation of a handle or a console line. -/
def Event.isOperation : Event → Bool
  | Event.view _ => true
  | Event.send _ => true
  | Event.existsSync _ => true
  | Event.ipfsUpload _ _ => true
  | Event.instanceAt _ _ => false
  | Event.log _ => false

/-- Whether an event is a call, view or transaction, of one of the methods named. -/
def Event.callsOneOf (methods : List String) : Event → Bool
  | Event.view c => methods.contains c.method
  | Event.send c => methods.contains c.method
  | _ => false

/-- The setting that `setting()` reads in a state. -/
def State.setting (s : State) : Setting :=
  s.env.chain.getSetting s.self.agreementHandle.address
    (s.env.chain.getCurrentSettingId s.self.agreementHandle.address)

/-- The subscription fees that `dispute` reads in a state: `getSubscriptionFees` of the
arbitrator of the current setting, for the agreement. -/
def State.subscriptionFees (s : State) : Fees :=
  s.env.chain.getSubscriptionFees s.setting.arbitrator s.self.agreementHandle.address

/-- The collateral requirement that `collateralRequirement()` reads in a state. -/
def State.requirement (s : State) : CollateralRequirement :=
  s.env.chain.getCollateralRequirement s.self.agreementHandle.address s.self.config.voting
    (s.env.chain.currentCollateralRequirementId s.self.agreementHandle.address s.self.config.voting)

/-- The two views of `collateralRequirement()` in a state. -/
def State.requirementReads (s : State) : List Event :=
  [Event.view (s.self.agreementHandle.call "getDisputableInfo" [Val.str s.self.config.voting]),
   Event.view (s.self.agreementHandle.call "getCollateralRequirement"
     [Val.str s.self.config.voting,
      Val.num (s.env.chain.currentCollateralRequirementId s.self.agreementHandle.address
        s.self.config.voting)])]

/-- The handle that `stakingFactory()` yields in a state: the cached one, or one for the
address that the agreement gives. -/
def State.stakingFactoryHandle (s : State) : Instance :=
  match s.self._stakingFactory with
  | some cached => cached
  | none => ⟨"StakingFactory", s.env.chain.stakingFactory s.self.agreementHandle.address⟩

/-- The message of the error that `_castSupport` throws. -/
def supportError : String := "Support value not valid, please use \"true\" or \"false\""

/-- The relation between a state and a later one when nothing in between was a call of
one of the `methods`: the environment, the configuration and the agreement and voting
handles are the same, and so are the calls of those methods in the trace. -/
structure Frame (methods : List String) (s s1 : State) : Prop where
  env : s1.env = s.env
  config : s1.self.config = s.self.config
  agreementHandle : s1.self.agreementHandle = s.self.agreementHandle
  votingHandle : s1.self.votingHandle = s.self.votingHandle
  calls : s1.trace.filter (Event.callsOneOf methods) = s.trace.filter (Event.callsOneOf methods)

/-- A computation none of whose runs calls one of the `methods`. -/
def Quiet (methods : List String) {α : Type} (m : M α) : Prop :=
  ∀ s, Frame methods s (m.run s).2

/-! ## A sample world -/

/-- A sample snapshot: collateral of 0 on token `0x..c1`, dispute fee 10 and subscription
fee `subscriptionFee` in token `0x..f1`, nothing paid yet, the signer has to sign and has
given no lock allowance. -/
def sampleChain (subscriptionFee : Nat) : Chain where
  getCurrentSettingId := fun _ => 1
  getSetting := fun _ _ =>
    ⟨"0x00000000000000000000000000000000000000a7", ZERO_ADDRESS, "Agreement"⟩
  currentCollateralRequirementId := fun _ _ => 1
  getCollateralRequirement := fun _ _ _ => ⟨"0x00000000000000000000000000000000000000c1", 0, 0, 0⟩
  stakingFactory := fun _ => "0x00000000000000000000000000000000000000fa"
  mustSign := fun _ _ => true
  disputeId := fun _ _ => Val.num 3
  getInstance := fun _ _ => "0x00000000000000000000000000000000000000e5"
  lockAllowance := fun _ _ _ => 0
  getDisputeFees := fun _ =>
    ⟨"0x00000000000000000000000000000000000000a7", "0x00000000000000000000000000000000000000f1", 10⟩
  getSubscriptionFees := fun _ _ =>
    ⟨"0x00000000000000000000000000000000000000b5", "0x00000000000000000000000000000000000000f1",
      subscriptionFee⟩
  lastPaymentPeriodId := fun _ _ => 0
  newLastPeriodId := fun _ _ => 5
  actionId := fun _ _ => 7

/-- A sample environment: nothing rejects, no file exists, and every receipt carries a
`StartVote` log with vote 7 and an `ActionDisputed` raw log with challenge 2. -/
def sampleEnv (subscriptionFee : Nat) : Env where
  chain := sampleChain subscriptionFee
  fileExists := fun _ => false
  cwd := "/home/operator"
  cid := fun _ _ => "QmSample"
  encoder := ⟨fun _ _ _ _ => "0x", fun _ _ _ => "0x", fun _ _ _ _ _ => "0x", fun _ _ => "0x",
    fun _ _ _ _ => "0x"⟩
  rejects := fun _ _ => false
  receipt := fun _ _ =>
    ⟨[⟨"StartVote", [("voteId", Val.num 7)]⟩], [⟨"ActionDisputed", [("challengeId", Val.num 2)]⟩]⟩

/-- A freshly constructed object in the sample environment, every allowance being
`allowance`. -/
def sampleState (subscriptionFee allowance : Nat) : State where
  self := ⟨"rinkeby",
    ⟨"0x00000000000000000000000000000000000000d0", "0x00000000000000000000000000000000000000a9",
     "0x00000000000000000000000000000000000000d7", "0x00000000000000000000000000000000000000a6"⟩,
    [], none, none, none, none, none⟩
  env := sampleEnv subscriptionFee
  allowance := fun _ _ _ => allowance
  trace := []

/-- A sample token handle. -/
def sampleToken : Instance := ⟨"ERC20", "0x00000000000000000000000000000000000000c1"⟩

/-- A sample account: owner of tokens, submitter, signer, voter. -/
def sampleAccount : String := "0x00000000000000000000000000000000000000b0"

/-- A sample spender. -/
def sampleSpender : String := "0x00000000000000000000000000000000000000e5"

/-! ## Running computations -/

@[simp] theorem State.push_trace (s : State) (e : Event) : (s.push e).trace = s.trace ++ [e] := rfl
@[simp] theorem State.push_env (s : State) (e : Event) : (s.push e).env = s.env := rfl
@[simp] theorem State.push_self (s : State) (e : Event) : (s.push e).self = s.self := rfl
@[simp] theorem State.push_allowance (s : State) (e : Event) : (s.push e).allowance = s.allowance := rfl
@[simp] theorem State.setSelf_trace (s : State) (o : ANDAO) : (s.setSelf o).trace = s.trace := rfl
@[simp] theorem State.setSelf_env (s : State) (o : ANDAO) : (s.setSelf o).env = s.env := rfl
@[simp] theorem State.setSelf_self (s : State) (o : ANDAO) : (s.setSelf o).self = o := rfl
@[simp] theorem State.setSelf_allowance (s : State) (o : ANDAO) :
    (s.setSelf o).allowance = s.allowance := rfl
@[simp] theorem State.setAllowance_trace (s : State) (t o p : String) (v : Nat) :
    (s.setAllowance t o p v).trace = s.trace := rfl
@[simp] theorem State.setAllowance_env (s : State) (t o p : String) (v : Nat) :
    (s.setAllowance t o p v).env = s.env := rfl
@[simp] theorem State.setAllowance_self (s : State) (t o p : String) (v : Nat) :
    (s.setAllowance t o p v).self = s.self := rfl
@[simp] theorem State.setAllowance_same (s : State) (t o p : String) (v : Nat) :
    (s.setAllowance t o p v).allowance t o p = v := by
  simp [State.setAllowance]

@[simp] theorem run_pure {α : Type} (a : α) (s : State) :
    (pure a : M α).run s = (Except.ok a, s) := rfl

theorem run_bind {α β : Type} (m : M α) (f : α → M β) (s : State) :
    (m >>= f).run s =
      match m.run s with
      | (Except.ok a, s1) => (f a).run s1
      | (Except.error e, s1) => (Except.error e, s1) := rfl

@[simp] theorem run_raise {α : Type} (e : Error) (s : State) :
    (raise e : M α).run s = (Except.error e, s) := rfl

@[simp] theorem run_bind_raise {α β : Type} (e : Error) (f : α → M β) (s : State) :
    (raise e >>= f).run s = (Except.error e, s) := rfl

@[simp] theorem run_getState (s : State) : getState.run s = (Except.ok s, s) := rfl

@[simp] theorem run_bind_getState {β : Type} (f : State → M β) (s : State) :
    (getState >>= f).run s = (f s).run s := rfl

@[simp] theorem run_setSelf (o : ANDAO) (s : State) :
    (setSelf o).run s = (Except.ok (), s.setSelf o) := rfl

@[simp] theorem run_bind_setSelf {β : Type} (o : ANDAO) (f : Unit → M β) (s : State) :
    (setSelf o >>= f).run s = (f ()).run (s.setSelf o) := rfl

@[simp] theorem run_setAllowance (t o p : String) (v : Nat) (s : State) :
    (setAllowance t o p v).run s = (Except.ok (), s.setAllowance t o p v) := rfl

@[simp] theorem run_bind_setAllowance {β : Type} (t o p : String) (v : Nat) (f : Unit → M β) (s : State) :
    (setAllowance t o p v >>= f).run s = (f ()).run (s.setAllowance t o p v) := rfl

@[simp] theorem run_emit (e : Event) (s : State) : (emit e).run s = (Except.ok (), s.push e) := rfl

@[simp] theorem run_bind_emit {β : Type} (e : Event) (f : Unit → M β) (s : State) :
    (emit e >>= f).run s = (f ()).run (s.push e) := rfl

@[simp] theorem run_consoleLog (msg : String) (s : State) :
    (consoleLog msg).run s = (Except.ok (), s.push (Event.log msg)) := rfl

@[simp] theorem run_bind_consoleLog {β : Type} (msg : String) (f : Unit → M β) (s : State) :
    (consoleLog msg >>= f).run s = (f ()).run (s.push (Event.log msg)) := rfl

@[simp] theorem run_liftExcept {α : Type} (r : Except Error α) (s : State) :
    (liftExcept r).run s = (r, s) := rfl

@[simp] theorem run_bind_liftExcept {α β : Type} (r : Except Error α) (f : α → M β) (s : State) :
    (liftExcept r >>= f).run s =
      match r with
      | Except.ok a => (f a).run s
      | Except.error e => (Except.error e, s) := by
  cases r <;> rfl

@[simp] theorem run_attempt (e : Event) (s : State) :
    (attempt e).run s =
      if s.env.rejects s.trace e then (Except.error (Error.rejected e), s.push e)
      else (Except.ok (), s.push e) := rfl

@[simp] theorem run_bind_attempt {β : Type} (e : Event) (f : Unit → M β) (s : State) :
    (attempt e >>= f).run s =
      if s.env.rejects s.trace e then (Except.error (Error.rejected e), s.push e)
      else (f ()).run (s.push e) := by
  rw [run_bind, run_attempt]
  split_ifs <;> rfl

@[simp] theorem run_ite {α : Type} (c : Prop) [Decidable c] (m1 m2 : M α) (s : State) :
    (if c then m1 else m2).run s = if c then m1.run s else m2.run s := by
  split_ifs <;> rfl

@[simp] theorem run_bind_ite {α β : Type} (c : Prop) [Decidable c] (m1 m2 : M α) (f : α → M β)
    (s : State) :
    ((if c then m1 else m2) >>= f).run s = if c then (m1 >>= f).run s else (m2 >>= f).run s := by
  split_ifs <;> rfl

@[simp] theorem run_bind_modifySelf {β : Type} (g : ANDAO → ANDAO) (f : Unit → M β) (s : State) :
    (modifySelf g >>= f).run s = (f ()).run (s.setSelf (g s.self)) := rfl

theorem run_bind_getInstance {β : Type} (contract address : String) (f : Instance → M β)
    (s : State) :
    (_getInstance contract address >>= f).run s =
      if s.env.rejects s.trace (Event.instanceAt contract address) then
        (Except.error (Error.rejected (Event.instanceAt contract address)),
          s.push (Event.instanceAt contract address))
      else (f ⟨contract, address⟩).run (s.push (Event.instanceAt contract address)) := by
  simp [_getInstance]

theorem run_bind_view {α β : Type} (c : Call) (answer : Chain → α) (f : α → M β) (s : State) :
    (view c answer >>= f).run s =
      if s.env.rejects s.trace (Event.view c) then
        (Except.error (Error.rejected (Event.view c)), s.push (Event.view c))
      else (f (answer s.env.chain)).run (s.push (Event.view c)) := by
  simp [view]

theorem run_bind_send {β : Type} (c : Call) (f : Receipt → M β) (s : State) :
    (send c >>= f).run s =
      if s.env.rejects s.trace (Event.send c) then
        (Except.error (Error.rejected (Event.send c)), s.push (Event.send c))
      else (f (s.env.receipt s.trace c)).run (s.push (Event.send c)) := by
  simp [send]

theorem run_send (c : Call) (s : State) :
    (send c).run s =
      if s.env.rejects s.trace (Event.send c) then
        (Except.error (Error.rejected (Event.send c)), s.push (Event.send c))
      else (Except.ok (s.env.receipt s.trace c), s.push (Event.send c)) := by
  simp [-bind_pure_comp, send]

theorem run_bind_voting {β : Type} (f : Instance → M β) (s : State) :
    (voting >>= f).run s =
      match s.self._voting with
      | some _ => (f s.self.votingHandle).run s
      | none =>
        if s.env.rejects s.trace (Event.instanceAt "DisputableVoting" s.self.config.voting) then
          (Except.error (Error.rejected (Event.instanceAt "DisputableVoting" s.self.config.voting)),
            s.push (Event.instanceAt "DisputableVoting" s.self.config.voting))
        else (f s.self.votingHandle).run
          ((s.push (Event.instanceAt "DisputableVoting" s.self.config.voting)).setSelf
            { s.self with _voting := some s.self.votingHandle }) := by
  simp only [voting, bind_assoc, run_bind_getState]
  cases hv : s.self._voting <;>
    simp [-bind_pure_comp, run_bind_getInstance, ANDAO.votingHandle, hv]

theorem run_bind_agreement {β : Type} (f : Instance → M β) (s : State) :
    (agreement >>= f).run s =
      match s.self._agreement with
      | some _ => (f s.self.agreementHandle).run s
      | none =>
        if s.env.rejects s.trace (Event.instanceAt "Agreement" s.self.config.agreement) then
          (Except.error (Error.rejected (Event.instanceAt "Agreement" s.self.config.agreement)),
            s.push (Event.instanceAt "Agreement" s.self.config.agreement))
        else (f s.self.agreementHandle).run
          ((s.push (Event.instanceAt "Agreement" s.self.config.agreement)).setSelf
            { s.self with _agreement := some s.self.agreementHandle }) := by
  simp only [agreement, bind_assoc, run_bind_getState]
  cases hv : s.self._agreement <;>
    simp [-bind_pure_comp, run_bind_getInstance, ANDAO.agreementHandle, hv]

/-! ## `_approveToken` -/

/-- C1, as stated, fails: at the sample state with an allowance of 5 and 10 required
(a top-up, 5 < 10), `_approveToken` completes and leaves an allowance of 15, which is
above the 10 required. -/
theorem approveToken_allowance_above_required :
    (sampleState 0 5).allowance sampleToken.address sampleAccount sampleSpender = 5 ∧
    ((_approveToken sampleToken sampleAccount sampleSpender 10).run (sampleState 0 5)).1
      = Except.ok () ∧
    ((_approveToken sampleToken sampleAccount sampleSpender 10).run (sampleState 0 5)).2.allowance
      sampleToken.address sampleAccount sampleSpender = 15 ∧
    ¬ ((_approveToken sampleToken sampleAccount sampleSpender 10).run (sampleState 0 5)).2.allowance
      sampleToken.address sampleAccount sampleSpender ≤ 10 := by
  refine ⟨rfl, rfl, rfl, ?_⟩
  decide

/-- C1, amended: after a run of `_approveToken` that completes having topped up (allowance
`a` below the required `r`), the allowance of the spender over the owner's tokens is
`r + a`, the required amount plus the allowance read before the top-up; it is not above
`r` exactly when `a = 0`. -/
theorem approveToken_allowance_after_topup (s : State) (token : Instance)
    (owner spender : String) (r : Nat)
    (h1 : s.allowance token.address owner spender < r)
    (hok : ((_approveToken token owner spender r).run s).1 = Except.ok ()) :
    ((_approveToken token owner spender r).run s).2.allowance token.address owner spender
        = r + s.allowance token.address owner spender ∧
    (((_approveToken token owner spender r).run s).2.allowance token.address owner spender ≤ r ↔
      s.allowance token.address owner spender = 0) := by
  have h2 : ¬ r ≤ s.allowance token.address owner spender := by omega
  revert hok
  simp [_approveToken, Instance.allowance, Instance.approve, send, h2]
  split_ifs <;> simp

/-- The amended C1 at the sample state: allowance 5, required 10, allowance left 15. -/
theorem approveToken_allowance_after_topup_witness :
    ((_approveToken sampleToken sampleAccount sampleSpender 10).run (sampleState 0 5)).2.allowance
      sampleToken.address sampleAccount sampleSpender = 10 + 5 :=
  (approveToken_allowance_after_topup (sampleState 0 5) sampleToken
    sampleAccount sampleSpender 10
    (by decide) rfl).1

/-- C2: with `0 < a < r` for the allowance `a` read, a run of `_approveToken` that
completes has made the read and then exactly two transactions, `approve(spender, 0)` and
`approve(spender, r + a)`, both from the owner, in this order; a run that does not
complete has made an initial part of these and nothing else; and the run completes
whenever nothing rejects. -/
theorem approveToken_reset_then_set (s : State) (token : Instance) (owner spender : String)
    (r : Nat)
    (h0 : 0 < s.allowance token.address owner spender)
    (h1 : s.allowance token.address owner spender < r) :
    (((_approveToken token owner spender r).run s).1 = Except.ok () →
      ((_approveToken token owner spender r).run s).2.trace = s.trace ++
        [allowanceRead token owner spender, approval token owner spender 0,
         approval token owner spender (r + s.allowance token.address owner spender)]) ∧
    (∃ k, ((_approveToken token owner spender r).run s).2.trace = s.trace ++
        List.take k [allowanceRead token owner spender, approval token owner spender 0,
         approval token owner spender (r + s.allowance token.address owner spender)]) ∧
    ((∀ h e, s.env.rejects h e = false) →
      ((_approveToken token owner spender r).run s).1 = Except.ok ()) := by
  have h2 : ¬ r ≤ s.allowance token.address owner spender := by omega
  simp [_approveToken, Instance.allowance, Instance.approve, send, allowanceRead, approval, h0, h2]
  refine ⟨?_, ?_, ?_⟩
  · split_ifs <;> simp
  · split_ifs
    · exact ⟨1, by simp⟩
    · exact ⟨2, by simp⟩
    · exact ⟨3, by simp⟩
    · exact ⟨3, by simp⟩
  · intro hr
    simp [hr]

/-- C2 at the sample state: allowance 5, required 10, approvals of 0 and of 15. -/
theorem approveToken_reset_then_set_witness :
    ((_approveToken sampleToken sampleAccount sampleSpender 10).run (sampleState 0 5)).2.trace =
      [allowanceRead sampleToken sampleAccount sampleSpender,
        approval sampleToken sampleAccount sampleSpender 0,
        approval sampleToken sampleAccount sampleSpender 15] :=
  (approveToken_reset_then_set (sampleState 0 5) sampleToken
    sampleAccount sampleSpender 10
    (by decide) (by decide)).1 rfl

/-- C3: when the allowance read is at least the required amount (also when both are
equal, and when 0 is required), `_approveToken` makes the allowance read and nothing
else: no transaction in any run, no allowance changed, and it returns normally unless
the read itself rejects. -/
theorem approveToken_enough (s : State) (token : Instance) (owner spender : String) (r : Nat)
    (h : r ≤ s.allowance token.address owner spender) :
    ((_approveToken token owner spender r).run s).2.trace
      = s.trace ++ [allowanceRead token owner spender] ∧
    ((_approveToken token owner spender r).run s).2.allowance = s.allowance ∧
    (s.env.rejects s.trace (allowanceRead token owner spender) = false →
      ((_approveToken token owner spender r).run s).1 = Except.ok ()) := by
  simp only [_approveToken, Instance.allowance, allowanceRead, bind_assoc, pure_bind,
    run_bind_attempt, run_bind_getState, run_ite, run_pure]
  split_ifs with h1 <;> simp_all

/-- C3 at the sample state: allowance 5, required 5, only the read is made. -/
theorem approveToken_enough_witness :
    ((_approveToken sampleToken sampleAccount sampleSpender 5).run (sampleState 0 5)).2.trace =
      [allowanceRead sampleToken sampleAccount sampleSpender] :=
  (approveToken_enough (sampleState 0 5) sampleToken
    sampleAccount sampleSpender 5
    (by decide)).1

/-- C4: when the allowance read is 0 and `r > 0` is required, a run of `_approveToken`
that completes has made the read and then exactly one transaction, `approve(spender, r)`
from the owner (no reset to zero), after which the allowance is exactly `r`; a run that
does not complete has made an initial part of these and nothing else; and the run
completes whenever nothing rejects. -/
theorem approveToken_from_zero (s : State) (token : Instance) (owner spender : String)
    (r : Nat)
    (h0 : s.allowance token.address owner spender = 0) (hr : 0 < r) :
    (((_approveToken token owner spender r).run s).1 = Except.ok () →
      ((_approveToken token owner spender r).run s).2.trace = s.trace ++
        [allowanceRead token owner spender, approval token owner spender r] ∧
      ((_approveToken token owner spender r).run s).2.allowance token.address owner spender = r) ∧
    (∃ k, ((_approveToken token owner spender r).run s).2.trace = s.trace ++
        List.take k [allowanceRead token owner spender, approval token owner spender r]) ∧
    ((∀ h e, s.env.rejects h e = false) →
      ((_approveToken token owner spender r).run s).1 = Except.ok ()) := by
  have h2 : ¬ r ≤ 0 := by omega
  simp [_approveToken, Instance.allowance, Instance.approve, send, allowanceRead, approval, h0, h2]
  refine ⟨?_, ?_, ?_⟩
  · split_ifs <;> simp
  · split_ifs
    · exact ⟨1, by simp⟩
    · exact ⟨2, by simp⟩
    · exact ⟨2, by simp⟩
  · intro hr
    simp [hr]

/-- C4 at the sample state: allowance 0, required 10, one approval of 10. -/
theorem approveToken_from_zero_witness :
    ((_approveToken sampleToken sampleAccount sampleSpender 10).run (sampleState 0 0)).2.trace =
      [allowanceRead sampleToken sampleAccount sampleSpender,
        approval sampleToken sampleAccount sampleSpender 10] :=
  ((approveToken_from_zero (sampleState 0 0) sampleToken
    sampleAccount sampleSpender 10
    rfl (by decide)).1 rfl).1

/-! ## `_castSupport`, `vote` and `delegateVote` -/

/-- C5: `_castSupport` returns a boolean as it is; on a string it succeeds exactly when
the lower-cased string is `true` or `false`, with the boolean `lower = "true"`, and
otherwise throws (so on `yes`, the empty string, ` true` and `1`).  When it throws,
`vote` and `delegateVote` end with an error and send no transaction; when it returns
`b`, a run that completes has sent exactly one transaction, carrying `b`. -/
theorem castSupport_accepts_true_false_only :
    (∀ b : Bool, _castSupport (Val.bool b) = Except.ok b) ∧
    (∀ str : String, _castSupport (Val.str str) =
      if toLowerCase str = "true" ∨ toLowerCase str = "false" then
        Except.ok (decide (toLowerCase str = "true"))
      else Except.error (Error.error supportError)) ∧
    (∀ str ∈ ["yes", "", " true", "1"],
      _castSupport (Val.str str) = Except.error (Error.error supportError)) ∧
    (∀ (s : State) (voteId : Nat) (v : Val) (voter : String) (e : Error),
      _castSupport v = Except.error e →
        (∃ e1, ((vote voteId v voter).run s).1 = Except.error e1) ∧
        ((vote voteId v voter).run s).2.trace.filter Event.isSend = s.trace.filter Event.isSend) ∧
    (∀ (s : State) (voteId : Nat) (v : Val) (voters : List String) (representative : String)
        (e : Error),
      _castSupport v = Except.error e →
        (∃ e1, ((delegateVote voteId v voters representative).run s).1 = Except.error e1) ∧
        ((delegateVote voteId v voters representative).run s).2.trace.filter Event.isSend
          = s.trace.filter Event.isSend) ∧
    (∀ (s : State) (voteId : Nat) (v : Val) (voter : String) (b : Bool) (receipt : Receipt),
      _castSupport v = Except.ok b →
      ((vote voteId v voter).run s).1 = Except.ok receipt →
        ((vote voteId v voter).run s).2.trace.filter Event.isSend = s.trace.filter Event.isSend ++
          [Event.send (s.self.votingHandle.tx "vote" [Val.num voteId, Val.bool b] (some voter))]) ∧
    (∀ (s : State) (voteId : Nat) (v : Val) (voters : List String) (representative : String)
        (b : Bool) (receipt : Receipt),
      _castSupport v = Except.ok b →
      ((delegateVote voteId v voters representative).run s).1 = Except.ok receipt →
        ((delegateVote voteId v voters representative).run s).2.trace.filter Event.isSend
          = s.trace.filter Event.isSend ++
            [Event.send (s.self.votingHandle.tx "voteOnBehalfOf"
              [Val.num voteId, Val.bool b, Val.arr voters] (some representative))]) := by
  refine ⟨fun b => rfl, ?_, ?_, ?_, ?_, ?_, ?_⟩
  · intro str
    simp only [_castSupport, Val.toStringMethod, Val.toStr, supportError]
    split_ifs with h1 h2 h3 <;> simp_all
  · intro str h
    simp only [List.mem_cons, List.mem_singleton, List.not_mem_nil, or_false] at h
    rcases h with rfl | rfl | rfl | rfl <;> rfl
  · intro s voteId v voter e he
    simp only [vote, he, run_bind_consoleLog, run_bind_voting, State.push_self]
    cases hv : s.self._voting <;> simp [Event.isSend]
    split_ifs <;> simp [Event.isSend]
  · intro s voteId v voters representative e he
    simp only [delegateVote, he, run_bind_consoleLog, run_bind_voting, State.push_self]
    cases hv : s.self._voting <;> simp [Event.isSend]
    split_ifs <;> simp [Event.isSend]
  · intro s voteId v voter b receipt hb
    simp only [vote, hb, run_bind_consoleLog, run_bind_voting, State.push_self]
    cases hv : s.self._voting <;> simp [Event.isSend, Instance.vote, run_send]
    all_goals split_ifs <;> simp [Event.isSend]
  · intro s voteId v voters representative b receipt hb
    simp only [delegateVote, hb, run_bind_consoleLog, run_bind_voting, State.push_self]
    cases hv : s.self._voting <;> simp [Event.isSend, Instance.voteOnBehalfOf, run_send]
    all_goals split_ifs <;> simp [Event.isSend]

/-! ## `_loadJustification` -/

theorem run_bind_existsSync {β : Type} (path : String) (f : Bool → M β) (s : State) :
    (existsSync path >>= f).run s = (f (s.env.fileExists path)).run (s.push (Event.existsSync path)) := by
  simp [existsSync]

theorem run_bind_ipfsUpload {β : Type} (file submitter : String) (f : String → M β) (s : State) :
    (ipfsUpload file submitter >>= f).run s =
      if s.env.rejects s.trace (Event.ipfsUpload file submitter) then
        (Except.error (Error.rejected (Event.ipfsUpload file submitter)),
          s.push (Event.ipfsUpload file submitter))
      else (f (s.env.cid file submitter)).run (s.push (Event.ipfsUpload file submitter)) := by
  simp [ipfsUpload]

theorem append_ne_empty (a b : String) (h : a ≠ "") : a ++ b ≠ "" := by
  intro hab
  apply h
  have h1 : (a ++ b).data = [] := by rw [hab]
  rw [String.data_append] at h1
  have h2 : a.data = [] := (List.append_eq_nil.mp h1).1
  exact String.ext h2

theorem pathResolve_ne_empty (cwd p : String) : pathResolve cwd p ≠ "" := by
  unfold pathResolve
  simp only
  split_ifs with h1 h2
  · exact append_ne_empty _ _ (by decide)
  · decide
  · exact h2

theorem endsWith_md_ne_empty (str : String) (h : endsWith str ".md" = true) : str ≠ "" := by
  intro he
  rw [he] at h
  revert h
  decide

/-- C9: the policy of `_loadJustification`.  A string that does not end in `.md` is
returned hex-encoded, with one console line and no file-system check or upload.  A string
that ends in `.md` is looked up at the path resolved against the working directory and,
if no file is there, at the string itself; the first that exists is uploaded, once, and
`utf8ToHex("ipfs:" + cid)` is returned (unless the upload rejects); when neither exists
the method throws after the two checks, without any upload. -/
theorem loadJustification_policy (s : State) (justification submitter : String) :
    (endsWith justification ".md" = false →
      (_loadJustification justification submitter).run s =
        (Except.ok (utf8ToHex justification),
          s.push (Event.log ("Sending justification as plain text: " ++ justification)))) ∧
    (endsWith justification ".md" = true →
      s.env.fileExists (pathResolve s.env.cwd justification) = true →
      (_loadJustification justification submitter).run s =
        if s.env.rejects
            (s.trace ++ [Event.log ("Uploading justification file to IPFS: " ++ justification),
              Event.existsSync (pathResolve s.env.cwd justification)])
            (Event.ipfsUpload (pathResolve s.env.cwd justification) submitter) then
          (Except.error (Error.rejected
              (Event.ipfsUpload (pathResolve s.env.cwd justification) submitter)),
            ((s.push (Event.log ("Uploading justification file to IPFS: " ++ justification))).push
              (Event.existsSync (pathResolve s.env.cwd justification))).push
              (Event.ipfsUpload (pathResolve s.env.cwd justification) submitter))
        else
          (Except.ok (utf8ToHex ("ipfs:" ++ s.env.cid (pathResolve s.env.cwd justification) submitter)),
            (((s.push (Event.log ("Uploading justification file to IPFS: " ++ justification))).push
              (Event.existsSync (pathResolve s.env.cwd justification))).push
              (Event.ipfsUpload (pathResolve s.env.cwd justification) submitter)).push
              (Event.log ("Uploaded justification to IPFS "
                ++ s.env.cid (pathResolve s.env.cwd justification) submitter)))) ∧
    (endsWith justification ".md" = true →
      s.env.fileExists (pathResolve s.env.cwd justification) = false →
      s.env.fileExists justification = true →
      (_loadJustification justification submitter).run s =
        if s.env.rejects
            (s.trace ++ [Event.log ("Uploading justification file to IPFS: " ++ justification),
              Event.existsSync (pathResolve s.env.cwd justification),
              Event.existsSync justification])
            (Event.ipfsUpload justification submitter) then
          (Except.error (Error.rejected (Event.ipfsUpload justification submitter)),
            (((s.push (Event.log ("Uploading justification file to IPFS: " ++ justification))).push
              (Event.existsSync (pathResolve s.env.cwd justification))).push
              (Event.existsSync justification)).push
              (Event.ipfsUpload justification submitter))
        else
          (Except.ok (utf8ToHex ("ipfs:" ++ s.env.cid justification submitter)),
            ((((s.push (Event.log ("Uploading justification file to IPFS: " ++ justification))).push
              (Event.existsSync (pathResolve s.env.cwd justification))).push
              (Event.existsSync justification)).push
              (Event.ipfsUpload justification submitter)).push
              (Event.log ("Uploaded justification to IPFS " ++ s.env.cid justification submitter)))) ∧
    (endsWith justification ".md" = true →
      s.env.fileExists (pathResolve s.env.cwd justification) = false →
      s.env.fileExists justification = false →
      (_loadJustification justification submitter).run s =
        (Except.error (Error.error ("Could not load justification file path " ++ justification)),
          ((s.push (Event.log ("Uploading justification file to IPFS: " ++ justification))).push
            (Event.existsSync (pathResolve s.env.cwd justification))).push
            (Event.existsSync justification))) := by
  refine ⟨?_, ?_, ?_, ?_⟩
  · intro h
    simp [-bind_pure_comp, _loadJustification, h]
  · intro h h1
    have hne := pathResolve_ne_empty s.env.cwd justification
    simp [-bind_pure_comp, _loadJustification, h, h1, run_bind_existsSync, run_bind_ipfsUpload,
      truthyPath, hne]
  · intro h h1 h2
    have hne := endsWith_md_ne_empty justification h
    simp [-bind_pure_comp, _loadJustification, h, h1, h2, run_bind_existsSync, run_bind_ipfsUpload,
      truthyPath, hne]
  · intro h h1 h2
    simp [-bind_pure_comp, _loadJustification, h, h1, h2, run_bind_existsSync, truthyPath]

/-! ## What a computation leaves alone -/

theorem Frame.refl (methods : List String) (s : State) : Frame methods s s :=
  ⟨rfl, rfl, rfl, rfl, rfl⟩

theorem Frame.trans {methods : List String} {s s1 s2 : State} (h1 : Frame methods s s1)
    (h2 : Frame methods s1 s2) : Frame methods s s2 :=
  ⟨h2.env.trans h1.env, h2.config.trans h1.config, h2.agreementHandle.trans h1.agreementHandle,
    h2.votingHandle.trans h1.votingHandle, h2.calls.trans h1.calls⟩

theorem Frame.push {methods : List String} (s : State) (e : Event)
    (h : Event.callsOneOf methods e = false) : Frame methods s (s.push e) :=
  ⟨rfl, rfl, rfl, rfl, by simp [h]⟩

theorem Frame.setAllowance {methods : List String} (s : State) (t o p : String) (v : Nat) :
    Frame methods s (s.setAllowance t o p v) :=
  ⟨rfl, rfl, rfl, rfl, rfl⟩

theorem callsOneOf_view {methods : List String} {c : Call} (h : c.method ∉ methods) :
    Event.callsOneOf methods (Event.view c) = false := by
  simpa [Event.callsOneOf] using h

theorem callsOneOf_send {methods : List String} {c : Call} (h : c.method ∉ methods) :
    Event.callsOneOf methods (Event.send c) = false := by
  simpa [Event.callsOneOf] using h

theorem quiet_pure (methods : List String) {α : Type} (a : α) : Quiet methods (pure a : M α) :=
  fun s => Frame.refl methods s

theorem quiet_raise (methods : List String) {α : Type} (e : Error) :
    Quiet methods (raise e : M α) :=
  fun s => Frame.refl methods s

theorem quiet_liftExcept (methods : List String) {α : Type} (r : Except Error α) :
    Quiet methods (liftExcept r) :=
  fun s => Frame.refl methods s

theorem quiet_getState (methods : List String) : Quiet methods getState :=
  fun s => Frame.refl methods s

theorem quiet_bind {methods : List String} {α β : Type} {m : M α} {f : α → M β}
    (hm : Quiet methods m) (hf : ∀ a, Quiet methods (f a)) : Quiet methods (m >>= f) := by
  intro s
  have h1 := hm s
  rw [run_bind]
  rcases h : m.run s with ⟨r, s1⟩
  rw [h] at h1
  cases r with
  | error e => exact h1
  | ok a => exact h1.trans (hf a s1)

theorem quiet_ite {methods : List String} {α : Type} (c : Prop) [Decidable c] {m1 m2 : M α}
    (h1 : Quiet methods m1) (h2 : Quiet methods m2) : Quiet methods (if c then m1 else m2) := by
  split_ifs
  · exact h1
  · exact h2

theorem quiet_emit {methods : List String} {e : Event}
    (h : Event.callsOneOf methods e = false) : Quiet methods (emit e) :=
  fun s => Frame.push s e h

theorem quiet_consoleLog (methods : List String) (msg : String) :
    Quiet methods (consoleLog msg) :=
  fun s => Frame.push s (Event.log msg) rfl

theorem quiet_attempt {methods : List String} {e : Event}
    (h : Event.callsOneOf methods e = false) : Quiet methods (attempt e) := by
  intro s
  rw [run_attempt]
  split_ifs <;> exact Frame.push s e h

theorem quiet_setAllowance (methods : List String) (t o p : String) (v : Nat) :
    Quiet methods (setAllowance t o p v) :=
  fun s => Frame.setAllowance s t o p v

theorem quiet_view {methods : List String} {α : Type} (c : Call) (answer : Chain → α)
    (h : c.method ∉ methods) : Quiet methods (view c answer) :=
  quiet_bind (quiet_attempt (callsOneOf_view h))
    (fun _ => quiet_bind (quiet_getState methods) (fun _ => quiet_pure methods _))

theorem quiet_send {methods : List String} (c : Call) (h : c.method ∉ methods) :
    Quiet methods (send c) :=
  quiet_bind (quiet_getState methods)
    (fun _ => quiet_bind (quiet_attempt (callsOneOf_send h)) (fun _ => quiet_pure methods _))

theorem quiet_getInstance (methods : List String) (contract address : String) :
    Quiet methods (_getInstance contract address) :=
  quiet_bind (quiet_attempt rfl) (fun _ => quiet_pure methods _)

theorem quiet_agreement (methods : List String) : Quiet methods agreement := by
  intro s
  have h := run_bind_agreement (fun a => pure a) s
  rw [bind_pure] at h
  rw [h]
  cases hv : s.self._agreement with
  | some cached => exact Frame.refl methods s
  | none =>
    simp only [run_pure]
    split_ifs
    · exact Frame.push s _ rfl
    · exact ⟨rfl, rfl, by simp [ANDAO.agreementHandle], by simp [ANDAO.votingHandle],
        by simp [Event.callsOneOf]⟩

theorem quiet_voting (methods : List String) : Quiet methods voting := by
  intro s
  have h := run_bind_voting (fun a => pure a) s
  rw [bind_pure] at h
  rw [h]
  cases hv : s.self._voting with
  | some cached => exact Frame.refl methods s
  | none =>
    simp only [run_pure]
    split_ifs
    · exact Frame.push s _ rfl
    · exact ⟨rfl, rfl, by simp [ANDAO.agreementHandle], by simp [ANDAO.votingHandle],
        by simp [Event.callsOneOf]⟩

theorem quiet_modifySelf {methods : List String} (g : ANDAO → ANDAO)
    (h : ∀ o, (g o).config = o.config ∧ (g o).agreementHandle = o.agreementHandle ∧
      (g o).votingHandle = o.votingHandle) : Quiet methods (modifySelf g) :=
  fun s => ⟨rfl, (h s.self).1, (h s.self).2.1, (h s.self).2.2, rfl⟩

theorem quiet_setting {methods : List String} (h1 : "getCurrentSettingId" ∉ methods)
    (h2 : "getSetting" ∉ methods) : Quiet methods setting :=
  quiet_bind (quiet_agreement methods) (fun _ =>
    quiet_bind (quiet_view _ _ h1) (fun _ => quiet_view _ _ h2))

theorem quiet_getDisputeFees {methods : List String} (h1 : "getCurrentSettingId" ∉ methods)
    (h2 : "getSetting" ∉ methods) (h3 : "getDisputeFees" ∉ methods) :
    Quiet methods getDisputeFees :=
  quiet_bind (quiet_setting h1 h2) (fun _ =>
    quiet_bind (quiet_getInstance methods _ _) (fun _ =>
      quiet_bind (quiet_view _ _ h3) (fun _ =>
        quiet_bind (quiet_getInstance methods _ _) (fun _ => quiet_pure methods _))))

theorem quiet_collateralRequirement {methods : List String}
    (h1 : "getDisputableInfo" ∉ methods) (h2 : "getCollateralRequirement" ∉ methods) :
    Quiet methods collateralRequirement :=
  quiet_bind (quiet_agreement methods) (fun _ =>
    quiet_bind (quiet_getState methods) (fun _ =>
      quiet_bind (quiet_view _ _ h1) (fun _ =>
        quiet_bind (quiet_view _ _ h2) (fun _ =>
          quiet_bind (quiet_getInstance methods _ _) (fun _ => quiet_pure methods _)))))

theorem quiet_stakingFactory {methods : List String} (h1 : "stakingFactory" ∉ methods) :
    Quiet methods stakingFactory := by
  refine quiet_bind (quiet_getState methods) (fun s0 => ?_)
  cases s0.self._stakingFactory with
  | some cached => exact quiet_pure methods _
  | none =>
    exact quiet_bind (quiet_agreement methods) (fun _ =>
      quiet_bind (quiet_view _ _ h1) (fun _ =>
        quiet_bind (quiet_getInstance methods _ _) (fun _ =>
          quiet_bind (quiet_modifySelf _ (fun o => ⟨rfl, rfl, rfl⟩)) (fun _ =>
            quiet_pure methods _))))

theorem quiet_stakingPool {methods : List String} (h1 : "stakingFactory" ∉ methods)
    (h2 : "getInstance" ∉ methods) (h3 : "getOrCreateInstance" ∉ methods) (token : Instance) :
    Quiet methods (stakingPool token) := by
  have hf := quiet_stakingFactory h1
  have hset : ∀ created : Instance, Quiet methods (do
      modifySelf (fun o => { o with stakingPools := (token.address, created) :: o.stakingPools })
      pure created) := fun created =>
    quiet_bind (quiet_modifySelf _ (fun o => ⟨rfl, rfl, rfl⟩)) (fun _ => quiet_pure methods _)
  simp only [stakingPool, bind_assoc, pure_bind]
  refine quiet_bind (quiet_getState methods) (fun s0 => ?_)
  split
  · exact quiet_pure methods _
  · refine quiet_bind hf (fun factory => ?_)
    refine quiet_bind (quiet_view _ _ h2) (fun found => ?_)
    apply quiet_ite
    · refine quiet_bind (quiet_send _ h3) (fun receipt => ?_)
      refine quiet_bind (quiet_liftExcept methods _) (fun y => ?_)
      split
      · exact quiet_bind (quiet_getInstance methods _ _) hset
      · exact quiet_bind (quiet_raise methods _) hset
    · exact quiet_bind (quiet_getInstance methods _ _) hset

theorem quiet_approve {methods : List String} (h : "approve" ∉ methods) (token : Instance)
    (spender : String) (value : Nat) (sender : String) :
    Quiet methods (token.approve spender value sender) :=
  quiet_bind (quiet_send _ h) (fun _ =>
    quiet_bind (quiet_setAllowance methods _ _ _ _) (fun _ => quiet_pure methods _))

theorem quiet_approveToken {methods : List String} (h1 : "allowance" ∉ methods)
    (h2 : "approve" ∉ methods) (token : Instance) (owner spender : String) (amount : Nat) :
    Quiet methods (_approveToken token owner spender amount) := by
  simp only [_approveToken, Instance.allowance, bind_assoc, pure_bind]
  refine quiet_bind (quiet_attempt (callsOneOf_view h1)) (fun _ => ?_)
  refine quiet_bind (quiet_getState methods) (fun s0 => ?_)
  apply quiet_ite
  · exact quiet_pure methods _
  · apply quiet_ite
    · exact quiet_bind (quiet_approve h2 _ _ _ _) (fun _ =>
        quiet_bind (quiet_approve h2 _ _ _ _) (fun _ => quiet_pure methods _))
    · exact quiet_bind (quiet_approve h2 _ _ _ _) (fun _ => quiet_pure methods _)

/-! ## Completed runs, step by step -/

theorem bind_ok {α β : Type} {m : M α} {f : α → M β} {s s2 : State} {b : β}
    (h : (m >>= f).run s = (Except.ok b, s2)) :
    ∃ a s1, m.run s = (Except.ok a, s1) ∧ (f a).run s1 = (Except.ok b, s2) := by
  rw [run_bind] at h
  rcases hm : m.run s with ⟨r, s1⟩
  rw [hm] at h
  cases r with
  | error e => simp at h
  | ok a => exact ⟨a, s1, rfl, h⟩

theorem Quiet.frame {methods : List String} {α : Type} {m : M α} (hq : Quiet methods m)
    {s s1 : State} {r : Except Error α} (h : m.run s = (r, s1)) : Frame methods s s1 := by
  have := hq s
  rw [h] at this
  exact this

theorem agreement_ok {s s1 : State} {a : Instance} (h : agreement.run s = (Except.ok a, s1)) :
    a = s.self.agreementHandle := by
  have h1 := run_bind_agreement (fun a => pure a) s
  rw [bind_pure, h] at h1
  cases hv : s.self._agreement with
  | some cached =>
    rw [hv] at h1
    simp at h1
    exact h1.1
  | none =>
    rw [hv] at h1
    simp only [run_pure] at h1
    split_ifs at h1
    · simp at h1
    · simp at h1
      exact h1.1

theorem voting_ok {s s1 : State} {a : Instance} (h : voting.run s = (Except.ok a, s1)) :
    a = s.self.votingHandle := by
  have h1 := run_bind_voting (fun a => pure a) s
  rw [bind_pure, h] at h1
  cases hv : s.self._voting with
  | some cached =>
    rw [hv] at h1
    simp at h1
    exact h1.1
  | none =>
    rw [hv] at h1
    simp only [run_pure] at h1
    split_ifs at h1
    · simp at h1
    · simp at h1
      exact h1.1

theorem view_ok {α : Type} {c : Call} {answer : Chain → α} {s s1 : State} {a : α}
    (h : (view c answer).run s = (Except.ok a, s1)) :
    a = answer s.env.chain ∧ s1 = s.push (Event.view c) := by
  have h1 := run_bind_view c answer (fun a => pure a) s
  rw [bind_pure, h] at h1
  split_ifs at h1
  · simp at h1
  · simp at h1
    exact h1

theorem send_ok {c : Call} {s s1 : State} {r : Receipt}
    (h : (send c).run s = (Except.ok r, s1)) :
    r = s.env.receipt s.trace c ∧ s1 = s.push (Event.send c) := by
  rw [run_send] at h
  split_ifs at h
  · simp at h
  · simp at h
    exact ⟨h.1.symm, h.2.symm⟩

theorem getInstance_ok {contract address : String} {s s1 : State} {a : Instance}
    (h : (_getInstance contract address).run s = (Except.ok a, s1)) :
    a = ⟨contract, address⟩ ∧ s1 = s.push (Event.instanceAt contract address) := by
  have h1 := run_bind_getInstance contract address (fun a => pure a) s
  rw [bind_pure, h] at h1
  split_ifs at h1
  · simp at h1
  · simp at h1
    exact h1

theorem consoleLog_ok {msg : String} {s s1 : State} {a : Unit}
    (h : (consoleLog msg).run s = (Except.ok a, s1)) : s1 = s.push (Event.log msg) := by
  simp at h
  exact h.symm

theorem setting_ok {s s1 : State} {v : Setting} (h : setting.run s = (Except.ok v, s1)) :
    v = s.setting := by
  obtain ⟨a, s2, h1, h2⟩ := bind_ok h
  have ha := agreement_ok h1
  have hf := (quiet_agreement []).frame h1
  obtain ⟨id, s3, h3, h4⟩ := bind_ok h2
  obtain ⟨hid, hs3⟩ := view_ok h3
  obtain ⟨hv, _⟩ := view_ok h4
  subst hs3
  rw [hv, hid, ha]
  simp [State.setting, hf.env]

theorem getState_ok {s s1 x : State} (h : getState.run s = (Except.ok x, s1)) :
    x = s ∧ s1 = s := by
  simp only [run_getState, Prod.mk.injEq, Except.ok.injEq] at h
  exact ⟨h.1.symm, h.2.symm⟩

theorem liftExcept_ok {α : Type} {r : Except Error α} {s s1 : State} {a : α}
    (h : (liftExcept r).run s = (Except.ok a, s1)) : r = Except.ok a ∧ s1 = s := by
  simp only [run_liftExcept, Prod.mk.injEq] at h
  exact ⟨h.1, h.2.symm⟩

/-! ## The staking pool that `stakingPool` resolves -/

theorem agreement_keeps {s s1 : State} {r : Except Error Instance}
    (h : agreement.run s = (r, s1)) :
    s1.self.stakingPools = s.self.stakingPools ∧ s1.self._stakingFactory = s.self._stakingFactory := by
  have h1 := run_bind_agreement (fun a => pure a) s
  rw [bind_pure, h] at h1
  cases hv : s.self._agreement with
  | some cached =>
    rw [hv] at h1
    simp at h1
    rw [h1.2]
    exact ⟨rfl, rfl⟩
  | none =>
    rw [hv] at h1
    simp only [run_pure] at h1
    split_ifs at h1 <;> simp at h1 <;> rw [h1.2] <;> exact ⟨rfl, rfl⟩

theorem collateralRequirement_token {s s1 : State} {col : Collateral}
    (h : collateralRequirement.run s = (Except.ok col, s1)) :
    col.collateralToken = ⟨"ERC20", s.requirement.collateralToken⟩ ∧
    s1.self.stakingPools = s.self.stakingPools ∧ s1.self._stakingFactory = s.self._stakingFactory := by
  simp only [collateralRequirement, bind_assoc, pure_bind, Instance.getDisputableInfo,
    Instance.getCollateralRequirement] at h
  obtain ⟨ag, s3, h1, k1⟩ := bind_ok h
  have hag := agreement_ok h1
  have f3 : Frame [] s s3 := (quiet_agreement _).frame h1
  have g3 := agreement_keeps h1
  subst hag
  obtain ⟨x, s4, h2, k2⟩ := bind_ok k1
  obtain ⟨hx, hs4⟩ := getState_ok h2
  subst hx hs4
  obtain ⟨id, s5, h3, k3⟩ := bind_ok k2
  obtain ⟨hid, hs5⟩ := view_ok h3
  obtain ⟨req, s6, h4, k4⟩ := bind_ok k3
  obtain ⟨hreq, hs6⟩ := view_ok h4
  obtain ⟨tok, s7, h5, k5⟩ := bind_ok k4
  obtain ⟨htok, hs7⟩ := getInstance_ok h5
  subst hs5 hs6 hs7
  simp only [State.push_env, f3.env, f3.config] at hid hreq
  subst hid
  have hreq2 : req = s.requirement := hreq
  subst hreq2
  simp only [run_pure, Prod.mk.injEq, Except.ok.injEq] at k5
  rw [← k5.1, ← k5.2]
  exact ⟨htok, g3.1, g3.2⟩

theorem stakingFactory_ok {s s1 : State} {factory : Instance}
    (h : stakingFactory.run s = (Except.ok factory, s1)) :
    factory = s.stakingFactoryHandle ∧ s1.env = s.env ∧
    s1.self.stakingPools = s.self.stakingPools := by
  simp only [stakingFactory, bind_assoc, pure_bind, Instance.stakingFactory] at h
  obtain ⟨x, s2, h1, k1⟩ := bind_ok h
  obtain ⟨hx, hs2⟩ := getState_ok h1
  rw [hx, hs2] at k1
  cases hv : s.self._stakingFactory with
  | some cached =>
    simp only [hv, run_pure, Prod.mk.injEq, Except.ok.injEq] at k1
    rw [← k1.1, ← k1.2]
    simp [State.stakingFactoryHandle, hv]
  | none =>
    simp only [hv] at k1
    obtain ⟨ag, s3, h2, k2⟩ := bind_ok k1
    have hag := agreement_ok h2
    have f3 : Frame [] s s3 := (quiet_agreement _).frame h2
    have g3 := agreement_keeps h2
    subst hag
    obtain ⟨addr, s4, h3, k3⟩ := bind_ok k2
    obtain ⟨haddr, hs4⟩ := view_ok h3
    obtain ⟨created, s5, h4, k4⟩ := bind_ok k3
    obtain ⟨hcr, hs5⟩ := getInstance_ok h4
    subst hs4 hs5 haddr hcr
    simp [-bind_pure_comp] at k4
    rw [← k4.1, ← k4.2]
    simp [State.stakingFactoryHandle, hv, f3.env, g3.1]

theorem stakingPool_ok {s s1 : State} {token staking : Instance}
    (h : (stakingPool token).run s = (Except.ok staking, s1)) :
    (∀ cached, s.self.stakingPools.lookup token.address = some cached → staking = cached) ∧
    (s.self.stakingPools.lookup token.address = none →
      staking.contract = "Staking" ∧
      (s.env.chain.getInstance s.stakingFactoryHandle.address token.address ≠ ZERO_ADDRESS →
        staking.address = s.env.chain.getInstance s.stakingFactoryHandle.address token.address) ∧
      (s.env.chain.getInstance s.stakingFactoryHandle.address token.address = ZERO_ADDRESS →
        ∃ history, getEventArgument
          (s.env.receipt history
            (s.stakingFactoryHandle.tx "getOrCreateInstance" [Val.str token.address] none))
          "NewStaking" "instance" false = Except.ok (Val.str staking.address))) := by
  simp only [stakingPool, bind_assoc, pure_bind, Instance.getInstance,
    Instance.getOrCreateInstance] at h
  obtain ⟨x, s2, h1, k1⟩ := bind_ok h
  obtain ⟨hx, hs2⟩ := getState_ok h1
  rw [hx, hs2] at k1
  cases hl : s.self.stakingPools.lookup token.address with
  | some cached =>
    simp only [hl, run_pure, Prod.mk.injEq, Except.ok.injEq] at k1
    refine ⟨fun c hc => ?_, fun hn => by simp at hn⟩
    simp only [Option.some.injEq] at hc
    rw [← k1.1, hc]
  | none =>
    refine ⟨fun c hc => by simp at hc, fun _ => ?_⟩
    simp only [hl] at k1
    obtain ⟨factory, s3, h2, k2⟩ := bind_ok k1
    obtain ⟨hfac, henv3, _⟩ := stakingFactory_ok h2
    subst hfac
    obtain ⟨found, s4, h3, k3⟩ := bind_ok k2
    obtain ⟨hfound, hs4⟩ := view_ok h3
    rw [henv3] at hfound
    subst hfound hs4
    by_cases hz : s.env.chain.getInstance s.stakingFactoryHandle.address token.address = ZERO_ADDRESS
    · rw [if_pos hz] at k3
      obtain ⟨receipt, s5, h4, k4⟩ := bind_ok k3
      obtain ⟨hrec, hs5⟩ := send_ok h4
      obtain ⟨arg, s6, h5, k5⟩ := bind_ok k4
      obtain ⟨harg, hs6⟩ := liftExcept_ok h5
      subst hs5 hs6 hrec
      simp only [State.push_env, henv3] at harg
      cases arg with
      | str address =>
        simp only at k5
        obtain ⟨created, s7, h6, k6⟩ := bind_ok k5
        obtain ⟨hcr, _⟩ := getInstance_ok h6
        simp [-bind_pure_comp] at k6
        rw [← k6.1, hcr]
        exact ⟨rfl, fun hne => absurd hz hne, fun _ => ⟨_, harg⟩⟩
      | undefined => simp at k5
      | bool b => simp at k5
      | num n => simp at k5
      | arr xs => simp at k5
    · rw [if_neg hz] at k3
      obtain ⟨created, s7, h6, k6⟩ := bind_ok k3
      obtain ⟨hcr, _⟩ := getInstance_ok h6
      simp [-bind_pure_comp] at k6
      rw [← k6.1, hcr]
      exact ⟨rfl, fun _ => rfl, fun he => absurd he hz⟩

/-! ## `sign` -/

theorem sign_lock_manager_ok (signer : String) (ag : Instance) (s1 s2 : State) (v : Val)
    (h : (do
      consoleLog "Allowing Agreement as a lock manager..."
      let collateral ← collateralRequirement
      let staking ← stakingPool collateral.collateralToken
      let allowance ← staking.getLock signer ag.address
      if allowance = 0 then
        let _ ← staking.allowManager ag.address MAX_UINT192 EMPTY_BYTES signer
        consoleLog "Agreement allowed!"
      else
        consoleLog "Agreement already allowed as a lock manager!"
      pure Val.undefined : M Val).run s1 = (Except.ok v, s2)) :
    ∃ staking : Instance,
      ((∀ cached, s1.self.stakingPools.lookup s1.requirement.collateralToken = some cached →
          staking = cached) ∧
        (s1.self.stakingPools.lookup s1.requirement.collateralToken = none →
          staking.contract = "Staking" ∧
          (s1.env.chain.getInstance s1.stakingFactoryHandle.address
              s1.requirement.collateralToken ≠ ZERO_ADDRESS →
            staking.address = s1.env.chain.getInstance s1.stakingFactoryHandle.address
              s1.requirement.collateralToken) ∧
          (s1.env.chain.getInstance s1.stakingFactoryHandle.address
              s1.requirement.collateralToken = ZERO_ADDRESS →
            ∃ history, getEventArgument
              (s1.env.receipt history
                (s1.stakingFactoryHandle.tx "getOrCreateInstance"
                  [Val.str s1.requirement.collateralToken] none))
              "NewStaking" "instance" false = Except.ok (Val.str staking.address)))) ∧
      s2.trace.filter (Event.callsOneOf ["sign", "getLock", "allowManager"]) =
        s1.trace.filter (Event.callsOneOf ["sign", "getLock", "allowManager"]) ++
        [Event.view (staking.call "getLock" [Val.str signer, Val.str ag.address])] ++
        (if s1.env.chain.lockAllowance staking.address signer ag.address = 0 then
          [Event.send (staking.tx "allowManager"
            [Val.str ag.address, Val.num MAX_UINT192, Val.str EMPTY_BYTES] (some signer))]
        else []) := by
  simp only [bind_assoc, pure_bind, Instance.getLock, Instance.allowManager] at h
  obtain ⟨_, s3, h1, k1⟩ := bind_ok h
  have e3 := consoleLog_ok h1
  have e3self : s3.self = s1.self := by rw [e3]; rfl
  have e3env : s3.env = s1.env := by rw [e3]; rfl
  obtain ⟨col, s4, h2, k2⟩ := bind_ok k1
  have f4 : Frame ["sign", "getLock", "allowManager"] s3 s4 :=
    (quiet_collateralRequirement (by decide) (by decide)).frame h2
  obtain ⟨htok, hpools, hfac⟩ := collateralRequirement_token h2
  obtain ⟨staking, s5, h3, k3⟩ := bind_ok k2
  have f5 : Frame ["sign", "getLock", "allowManager"] s4 s5 :=
    (quiet_stakingPool (by decide) (by decide) (by decide) _).frame h3
  have hpool := stakingPool_ok h3
  obtain ⟨al, s6, h4, k4⟩ := bind_ok k3
  obtain ⟨hal, hs6⟩ := view_ok h4
  have henv : s5.env = s1.env := by rw [f5.env, f4.env, e3env]
  have hcalls : s5.trace.filter (Event.callsOneOf ["sign", "getLock", "allowManager"]) =
      s1.trace.filter (Event.callsOneOf ["sign", "getLock", "allowManager"]) := by
    rw [f5.calls, f4.calls, e3]
    simp [Event.callsOneOf]
  have hreq : s3.requirement = s1.requirement := by
    simp only [State.requirement, e3self, e3env]
  have hhandle : s4.stakingFactoryHandle = s1.stakingFactoryHandle := by
    simp only [State.stakingFactoryHandle, hfac, f4.env, f4.agreementHandle, e3self, e3env]
  refine ⟨staking, ?_, ?_⟩
  · rw [htok] at hpool
    simp only [hpools, hhandle, hreq, f4.env, e3env, e3self] at hpool
    exact hpool
  · rw [henv] at hal
    subst hal hs6
    by_cases hz : s1.env.chain.lockAllowance staking.address signer ag.address = 0
    · simp only [hz, if_true] at k4 ⊢
      obtain ⟨_, s7, h5, k5⟩ := bind_ok k4
      obtain ⟨_, hs7⟩ := send_ok h5
      subst hs7
      simp [-bind_pure_comp] at k5
      rw [← k5.2]
      simp [hcalls, Event.callsOneOf, Instance.call, Instance.tx]
    · simp only [hz, if_false] at k4 ⊢
      simp [-bind_pure_comp] at k4
      rw [← k4.2]
      simp [hcalls, Event.callsOneOf, Instance.call, Instance.tx]

/-- C10: in every run of `sign(signer)` that completes, the `sign`, `getLock` and
`allowManager` calls made are, in this order: the transaction `agreement.sign(settingId)`
from the signer exactly when `getSigner(signer).mustSign` is true; then, in both cases,
the read of the signer's lock for the agreement on the staking pool of the collateral
token; then the transaction `allowManager(agreement, MAX_UINT192, EMPTY_BYTES)` from the
signer on that pool exactly when the lock allowance read is 0.  The staking pool is the
one `stakingPool(collateralToken)` resolves: the handle cached for the token, or else a
`Staking` handle at the address the staking factory gives for the token, taken from the
`NewStaking` log of `getOrCreateInstance` when the factory has none yet. -/
theorem sign_transactions (s : State) (signer : String) (v : Val)
    (hok : ((sign signer).run s).1 = Except.ok v) :
    ∃ staking : Instance,
      ((∀ cached, s.self.stakingPools.lookup s.requirement.collateralToken = some cached →
          staking = cached) ∧
        (s.self.stakingPools.lookup s.requirement.collateralToken = none →
          staking.contract = "Staking" ∧
          (s.env.chain.getInstance s.stakingFactoryHandle.address
              s.requirement.collateralToken ≠ ZERO_ADDRESS →
            staking.address = s.env.chain.getInstance s.stakingFactoryHandle.address
              s.requirement.collateralToken) ∧
          (s.env.chain.getInstance s.stakingFactoryHandle.address
              s.requirement.collateralToken = ZERO_ADDRESS →
            ∃ history, getEventArgument
              (s.env.receipt history
                (s.stakingFactoryHandle.tx "getOrCreateInstance"
                  [Val.str s.requirement.collateralToken] none))
              "NewStaking" "instance" false = Except.ok (Val.str staking.address)))) ∧
      ((sign signer).run s).2.trace.filter (Event.callsOneOf ["sign", "getLock", "allowManager"]) =
        s.trace.filter (Event.callsOneOf ["sign", "getLock", "allowManager"]) ++
        (if s.env.chain.mustSign s.self.agreementHandle.address signer = true then
          [Event.send (s.self.agreementHandle.tx "sign"
            [Val.num (s.env.chain.getCurrentSettingId s.self.agreementHandle.address)]
            (some signer))]
        else []) ++
        [Event.view (staking.call "getLock"
          [Val.str signer, Val.str s.self.agreementHandle.address])] ++
        (if s.env.chain.lockAllowance staking.address signer s.self.agreementHandle.address = 0 then
          [Event.send (staking.tx "allowManager"
            [Val.str s.self.agreementHandle.address, Val.num MAX_UINT192, Val.str EMPTY_BYTES]
            (some signer))]
        else []) := by
  rcases hrun : (sign signer).run s with ⟨r, s2⟩
  rw [hrun] at hok
  simp only at hok
  subst hok
  simp only [sign, bind_assoc, pure_bind, Instance.getSigner, Instance.getCurrentSettingId,
    Instance.sign] at hrun
  obtain ⟨ag, s3, h1, k1⟩ := bind_ok hrun
  have hag := agreement_ok h1
  have f3 : Frame ["sign", "getLock", "allowManager"] s s3 := (quiet_agreement _).frame h1
  have g3 := agreement_keeps h1
  subst hag
  obtain ⟨ms, s4, h2, k2⟩ := bind_ok k1
  obtain ⟨hms, hs4⟩ := view_ok h2
  rw [f3.env] at hms
  subst hms
  have e4self : s4.self = s3.self := by rw [hs4]; rfl
  have e4env : s4.env = s.env := by rw [hs4]; exact f3.env
  have e4calls : s4.trace.filter (Event.callsOneOf ["sign", "getLock", "allowManager"]) =
      s.trace.filter (Event.callsOneOf ["sign", "getLock", "allowManager"]) := by
    rw [hs4]
    simp [f3.calls, Event.callsOneOf, Instance.call]
  have transport : ∀ sk : State, sk.self = s3.self → sk.env = s.env →
      sk.self.stakingPools = s.self.stakingPools ∧ sk.requirement = s.requirement ∧
      sk.stakingFactoryHandle = s.stakingFactoryHandle := by
    intro sk hself henv
    refine ⟨by rw [hself, g3.1], ?_, ?_⟩
    · simp only [State.requirement, hself, henv, f3.agreementHandle, f3.config]
    · simp only [State.stakingFactoryHandle, hself, henv, f3.agreementHandle, g3.2]
  by_cases hm : s.env.chain.mustSign s.self.agreementHandle.address signer = true
  · simp only [hm, if_true] at k2 ⊢
    obtain ⟨_, s5, h3, k3⟩ := bind_ok k2
    have e5 := consoleLog_ok h3
    obtain ⟨id, s6, h4, k4⟩ := bind_ok k3
    obtain ⟨hid, hs6⟩ := view_ok h4
    obtain ⟨_, s7, h5, k5⟩ := bind_ok k4
    obtain ⟨_, hs7⟩ := send_ok h5
    obtain ⟨_, s8, h6, k6⟩ := bind_ok k5
    have e8 := consoleLog_ok h6
    have e8self : s8.self = s3.self := by rw [e8, hs7, hs6, e5]; exact e4self
    have e8env : s8.env = s.env := by rw [e8, hs7, hs6, e5]; exact e4env
    have hid2 : id = s.env.chain.getCurrentSettingId s.self.agreementHandle.address := by
      rw [hid, e5]
      simp only [State.push_env, e4env]
    have e8calls : s8.trace.filter (Event.callsOneOf ["sign", "getLock", "allowManager"]) =
        s.trace.filter (Event.callsOneOf ["sign", "getLock", "allowManager"]) ++
        [Event.send (s.self.agreementHandle.tx "sign"
          [Val.num (s.env.chain.getCurrentSettingId s.self.agreementHandle.address)]
          (some signer))] := by
      rw [e8, hs7, hs6, e5, hid2]
      simp [e4calls, Event.callsOneOf, Instance.call, Instance.tx]
    obtain ⟨hp, hq, hf⟩ := transport s8 e8self e8env
    obtain ⟨staking, hpool, hst⟩ := sign_lock_manager_ok signer s.self.agreementHandle s8 s2 v
      (by simpa only [bind_assoc, pure_bind] using k6)
    refine ⟨staking, ?_, ?_⟩
    · simp only [hp, hq, hf, e8env] at hpool
      exact hpool
    · rw [hst, e8calls, e8env]
  · simp only [hm] at k2 ⊢
    obtain ⟨_, s5, h3, k3⟩ := bind_ok k2
    have e5 := consoleLog_ok h3
    have e5self : s5.self = s3.self := by rw [e5]; exact e4self
    have e5env : s5.env = s.env := by rw [e5]; exact e4env
    have e5calls : s5.trace.filter (Event.callsOneOf ["sign", "getLock", "allowManager"]) =
        s.trace.filter (Event.callsOneOf ["sign", "getLock", "allowManager"]) := by
      rw [e5]
      simp [e4calls, Event.callsOneOf]
    obtain ⟨hp, hq, hf⟩ := transport s5 e5self e5env
    obtain ⟨staking, hpool, hst⟩ := sign_lock_manager_ok signer s.self.agreementHandle s5 s2 v
      (by simpa only [bind_assoc, pure_bind] using k3)
    refine ⟨staking, ?_, ?_⟩
    · simp only [hp, hq, hf, e5env] at hpool
      exact hpool
    · rw [hst, e5calls, e5env]
      simp

/-- C10 at the sample state, where the signer has to sign and has given no lock allowance
and the factory has a pool for the collateral token: the `sign` transaction, the lock
read on that pool and the `allowManager` transaction on it. -/
theorem sign_transactions_witness :
    ((sign sampleAccount).run (sampleState 0 0)).2.trace.filter
        (Event.callsOneOf ["sign", "getLock", "allowManager"]) =
      [Event.send (Instance.tx ⟨"Agreement", "0x00000000000000000000000000000000000000a6"⟩
          "sign" [Val.num 1] (some sampleAccount)),
        Event.view (Instance.call ⟨"Staking", "0x00000000000000000000000000000000000000e5"⟩
          "getLock" [Val.str sampleAccount, Val.str "0x00000000000000000000000000000000000000a6"]),
        Event.send (Instance.tx ⟨"Staking", "0x00000000000000000000000000000000000000e5"⟩
          "allowManager"
          [Val.str "0x00000000000000000000000000000000000000a6", Val.num MAX_UINT192,
            Val.str EMPTY_BYTES]
          (some sampleAccount))] := by
  obtain ⟨staking, hpool, htrace⟩ :=
    sign_transactions (sampleState 0 0) sampleAccount Val.undefined rfl
  obtain ⟨hcontract, haddress, _⟩ := hpool.2 rfl
  have hst : staking = ⟨"Staking", "0x00000000000000000000000000000000000000e5"⟩ := by
    cases staking with
    | mk c a =>
      simp only at hcontract
      have ha := haddress (by decide)
      simp only at ha
      rw [hcontract, ha]
      rfl
  rw [htrace, hst]
  rfl

/-! ## `dispute` -/

theorem Frame.setting_eq {methods : List String} {s s1 : State} (h : Frame methods s s1) :
    s1.setting = s.setting := by
  simp [State.setting, h.env, h.agreementHandle]

theorem dispute_action_ok (voteId : Nat) (submitter : String) (ag : Instance) (s1 s2 : State)
    (v : Val)
    (h : (do
      consoleLog "Disputing action..."
      let voting ← voting
      let actionId ← voting.getVote voteId
      let receipt ← ag.disputeAction actionId true submitter
      let challengeId ← liftExcept (getEventArgument receipt "ActionDisputed" "challengeId" true)
      let disputeId ← ag.getChallenge challengeId
      consoleLog ("Disputed proposal #" ++ toString voteId ++ " (dispute #" ++ disputeId.toStr ++ ")!")
      pure Val.undefined : M Val).run s1 = (Except.ok v, s2)) :
    s2.trace.filter (Event.callsOneOf ["payFees", "disputeAction"]) =
      s1.trace.filter (Event.callsOneOf ["payFees", "disputeAction"]) ++
      [Event.send (ag.tx "disputeAction"
        [Val.num (s1.env.chain.actionId s1.self.votingHandle.address voteId), Val.bool true]
        (some submitter))] := by
  simp only [bind_assoc, pure_bind, Instance.getVote, Instance.disputeAction,
    Instance.getChallenge] at h
  obtain ⟨_, s3, h1, h⟩ := bind_ok h
  have e3 := consoleLog_ok h1
  obtain ⟨vt, s4, h2, h⟩ := bind_ok h
  have hvt := voting_ok h2
  have f4 : Frame ["payFees", "disputeAction"] s3 s4 := (quiet_voting _).frame h2
  obtain ⟨act, s5, h3, h⟩ := bind_ok h
  obtain ⟨hact, hs5⟩ := view_ok h3
  obtain ⟨receipt, s6, h4, h⟩ := bind_ok h
  obtain ⟨_, hs6⟩ := send_ok h4
  obtain ⟨ch, s7, h5, h⟩ := bind_ok h
  have hs7 : s7 = s6 := by
    simp only [run_liftExcept, Prod.mk.injEq] at h5
    exact h5.2.symm
  obtain ⟨dId, s8, h6, h⟩ := bind_ok h
  obtain ⟨_, hs8⟩ := view_ok h6
  simp [-bind_pure_comp] at h
  rw [← h.2, hs8, hs7, hs6, hs5]
  subst e3
  simp [f4.calls, f4.env, hact, hvt, Event.callsOneOf, Instance.call, Instance.tx]

/-- C6, as stated, fails: at the sample state with a subscription fee amount of 0, where
the subscriber's `lastPaymentPeriodId` is 0, `dispute` completes without any `payFees`
call, its only transactions being the approvals and `disputeAction`. -/
theorem dispute_without_subscription_fee_pays_nothing :
    (sampleState 0 0).env.chain.lastPaymentPeriodId (sampleState 0 0).subscriptionFees.recipient
      (sampleState 0 0).self.agreementHandle.address = 0 ∧
    ((dispute 4 sampleAccount).run (sampleState 0 0)).1 = Except.ok Val.undefined ∧
    ((dispute 4 sampleAccount).run (sampleState 0 0)).2.trace.filter
      (Event.callsOneOf ["payFees"]) = [] ∧
    ((dispute 4 sampleAccount).run (sampleState 0 0)).2.trace.filter Event.isSend =
      [approval ⟨"ERC20", "0x00000000000000000000000000000000000000f1"⟩ sampleAccount
          (sampleState 0 0).self.agreementHandle.address 10,
        Event.send ((sampleState 0 0).self.agreementHandle.tx "disputeAction"
          [Val.num 7, Val.bool true] (some sampleAccount))] := by
  refine ⟨rfl, rfl, ?_, ?_⟩
  · decide
  · decide

/-- C6, amended: in every run of `dispute(voteId, submitter)` that completes, when the
subscription fee amount is above 0 and the subscriber's `lastPaymentPeriodId` is 0, the
`payFees` and `disputeAction` calls made are exactly `payFees(agreement, 1)` from the
submitter on the subscriptions contract and then `disputeAction(actionId, true)` from the
submitter on the agreement, whatever `newLastPeriodId` is; when the subscription fee
amount is 0, no `payFees` call is made and `disputeAction` is the only one of the two. -/
theorem dispute_pays_one_period (s : State) (voteId : Nat) (submitter : String) (v : Val)
    (hok : ((dispute voteId submitter).run s).1 = Except.ok v) :
    (0 < s.subscriptionFees.feeAmount →
      s.env.chain.lastPaymentPeriodId s.subscriptionFees.recipient
        s.self.agreementHandle.address = 0 →
      ((dispute voteId submitter).run s).2.trace.filter
          (Event.callsOneOf ["payFees", "disputeAction"]) =
        s.trace.filter (Event.callsOneOf ["payFees", "disputeAction"]) ++
        [Event.send (Instance.tx ⟨"CourtSubscriptions", s.subscriptionFees.recipient⟩ "payFees"
            [Val.str s.self.agreementHandle.address, Val.num 1] (some submitter)),
          Event.send (s.self.agreementHandle.tx "disputeAction"
            [Val.num (s.env.chain.actionId s.self.votingHandle.address voteId), Val.bool true]
            (some submitter))]) ∧
    (s.subscriptionFees.feeAmount = 0 →
      ((dispute voteId submitter).run s).2.trace.filter
          (Event.callsOneOf ["payFees", "disputeAction"]) =
        s.trace.filter (Event.callsOneOf ["payFees", "disputeAction"]) ++
        [Event.send (s.self.agreementHandle.tx "disputeAction"
            [Val.num (s.env.chain.actionId s.self.votingHandle.address voteId), Val.bool true]
            (some submitter))]) := by
  rcases hrun : (dispute voteId submitter).run s with ⟨r, s2⟩
  rw [hrun] at hok
  simp only at hok
  subst hok
  simp only [dispute, bind_assoc, pure_bind, Instance.getSubscriptionFees, Instance.getSubscriber,
    Instance.getOwedFeesDetails, Instance.payFees] at hrun
  obtain ⟨_, s3, h1, h⟩ := bind_ok hrun
  have e3 := consoleLog_ok h1
  have f3 : Frame ["payFees", "disputeAction"] s s3 := by
    rw [e3]
    exact Frame.push s _ rfl
  obtain ⟨ag, s4, h2, h⟩ := bind_ok h
  have hag := agreement_ok h2
  have f4 := f3.trans ((quiet_agreement _).frame h2)
  rw [f3.agreementHandle] at hag
  subst hag
  obtain ⟨fees, s5, h3, h⟩ := bind_ok h
  have f5 := f4.trans ((quiet_getDisputeFees (by decide) (by decide) (by decide)).frame h3)
  obtain ⟨_, s6, h4, h⟩ := bind_ok h
  have f6 := f5.trans ((quiet_approveToken (by decide) (by decide) _ _ _ _).frame h4)
  obtain ⟨_, s7, h5, h⟩ := bind_ok h
  have e7 := consoleLog_ok h5
  have f7 : Frame ["payFees", "disputeAction"] s s7 := by
    rw [e7]
    exact f6.trans (Frame.push s6 _ rfl)
  obtain ⟨cur, s8, h6, h⟩ := bind_ok h
  have hcur := setting_ok h6
  rw [f7.setting_eq] at hcur
  have f8 := f7.trans ((quiet_setting (by decide) (by decide)).frame h6)
  subst hcur
  obtain ⟨arb, s9, h7, h⟩ := bind_ok h
  obtain ⟨harb, hs9⟩ := getInstance_ok h7
  have f9 : Frame ["payFees", "disputeAction"] s s9 := by
    rw [hs9]
    exact f8.trans (Frame.push s8 _ rfl)
  subst harb
  obtain ⟨sub, s10, h8, h⟩ := bind_ok h
  obtain ⟨hsub, hs10⟩ := view_ok h8
  have f10 : Frame ["payFees", "disputeAction"] s s10 := by
    rw [hs10]
    exact f9.trans (Frame.push s9 _ rfl)
  have hsub2 : sub = s.subscriptionFees := by
    rw [hsub, f9.env]
    rfl
  subst hsub2
  clear hsub
  constructor
  · intro hfee hlast
    have hpos : s.subscriptionFees.feeAmount > 0 := hfee
    simp only [hpos, if_true] at h
    obtain ⟨tok, s11, h9, h⟩ := bind_ok h
    obtain ⟨_, hs11⟩ := getInstance_ok h9
    have f11 : Frame ["payFees", "disputeAction"] s s11 := by
      rw [hs11]
      exact f10.trans (Frame.push s10 _ rfl)
    obtain ⟨_, s12, h10, h⟩ := bind_ok h
    have f12 := f11.trans ((quiet_approveToken (by decide) (by decide) _ _ _ _).frame h10)
    obtain ⟨subs, s13, h11, h⟩ := bind_ok h
    obtain ⟨hsubs, hs13⟩ := getInstance_ok h11
    have f13 : Frame ["payFees", "disputeAction"] s s13 := by
      rw [hs13]
      exact f12.trans (Frame.push s12 _ rfl)
    subst hsubs
    obtain ⟨last, s14, h12, h⟩ := bind_ok h
    obtain ⟨hl, hs14⟩ := view_ok h12
    have f14 : Frame ["payFees", "disputeAction"] s s14 := by
      rw [hs14]
      exact f13.trans (Frame.push s13 _ rfl)
    rw [f13.env] at hl
    simp only [] at hl
    rw [hlast] at hl
    subst hl
    obtain ⟨newLast, s15, h13, h⟩ := bind_ok h
    obtain ⟨_, hs15⟩ := view_ok h13
    have f15 : Frame ["payFees", "disputeAction"] s s15 := by
      rw [hs15]
      exact f14.trans (Frame.push s14 _ rfl)
    obtain ⟨_, s16, h14, h⟩ := bind_ok h
    obtain ⟨_, hs16⟩ := send_ok h14
    have hd := dispute_action_ok voteId submitter s.self.agreementHandle s16 s2 v
      (by simpa only [bind_assoc, pure_bind] using h)
    simp only [hd, hs16, State.push_trace, State.push_env, State.push_self, f15.calls, f15.env,
      f15.votingHandle]
    simp [Event.callsOneOf, Instance.tx]
    exact f15.calls
  · intro hzero
    have hnot : ¬ s.subscriptionFees.feeAmount > 0 := by omega
    simp only [hnot, if_false] at h
    have hd := dispute_action_ok voteId submitter s.self.agreementHandle s10 s2 v
      (by simpa only [bind_assoc, pure_bind] using h)
    simp only [hd, f10.calls, f10.env, f10.votingHandle]

/-- The amended C6 at the sample state with a subscription fee amount of 7: nothing was
paid yet and `newLastPeriodId` is 5, and `payFees` is called once, for 1 period, before
`disputeAction`. -/
theorem dispute_pays_one_period_witness :
    ((dispute 4 sampleAccount).run (sampleState 7 0)).2.trace.filter
        (Event.callsOneOf ["payFees", "disputeAction"]) =
      [Event.send (Instance.tx ⟨"CourtSubscriptions", "0x00000000000000000000000000000000000000b5"⟩
          "payFees" [Val.str "0x00000000000000000000000000000000000000a6", Val.num 1]
          (some sampleAccount)),
        Event.send (Instance.tx ⟨"Agreement", "0x00000000000000000000000000000000000000a6"⟩
          "disputeAction" [Val.num 7, Val.bool true] (some sampleAccount))] :=
  (dispute_pays_one_period (sampleState 7 0) 4 sampleAccount Val.undefined rfl).1
    (by decide) rfl

/-! ## `newVote` -/

theorem quiet_loadJustification (methods : List String) (justification submitter : String) :
    Quiet methods (_loadJustification justification submitter) := by
  simp only [_loadJustification, existsSync, ipfsUpload, bind_assoc, pure_bind]
  repeat' first
    | exact quiet_pure _ _
    | exact quiet_raise _ _
    | exact quiet_consoleLog _ _
    | exact quiet_getState _
    | exact quiet_emit rfl
    | exact quiet_attempt rfl
    | apply quiet_ite
    | apply quiet_bind
    | intro _

theorem newVote_submit_ok (script rawJustification submitter : String) (s1 s2 : State) (v : Val)
    (h : (do
      consoleLog "Creating proposal..."
      let voting ← voting
      let justification ← _loadJustification rawJustification submitter
      let receipt ← voting.newVote script justification submitter
      let voteId ← liftExcept (getEventArgument receipt "StartVote" "voteId" false)
      consoleLog ("Created vote with proposal ID #" ++ voteId.toStr ++ "!")
      if script ≠ EMPTY_CALLS_SCRIPT then
        consoleLog ("\nRemember script submitted for future execution: " ++ script)
      pure Val.undefined : M Val).run s1 = (Except.ok v, s2)) :
    v = Val.undefined ∧
    ∃ (history : List Event) (context : String) (voteId : Val),
      getEventArgument
        (s1.env.receipt history
          (s1.self.votingHandle.tx "newVote" [Val.str script, Val.str context] (some submitter)))
        "StartVote" "voteId" false = Except.ok voteId ∧
      s2.trace = history ++
        [Event.send (s1.self.votingHandle.tx "newVote" [Val.str script, Val.str context]
            (some submitter)),
          Event.log ("Created vote with proposal ID #" ++ voteId.toStr ++ "!")] ++
        (if script ≠ EMPTY_CALLS_SCRIPT then
          [Event.log ("\nRemember script submitted for future execution: " ++ script)]
        else []) := by
  simp only [bind_assoc, pure_bind, Instance.newVote] at h
  obtain ⟨_, s3, h1, h⟩ := bind_ok h
  have e3 := consoleLog_ok h1
  obtain ⟨vt, s4, h2, h⟩ := bind_ok h
  have hvt := voting_ok h2
  have f4 : Frame [] s3 s4 := (quiet_voting _).frame h2
  obtain ⟨context, s5, h3, h⟩ := bind_ok h
  have f5 : Frame [] s4 s5 := (quiet_loadJustification _ _ _).frame h3
  obtain ⟨receipt, s6, h4, h⟩ := bind_ok h
  obtain ⟨hrec, hs6⟩ := send_ok h4
  obtain ⟨voteId, s7, h5, h⟩ := bind_ok h
  obtain ⟨hid, hs7⟩ := liftExcept_ok h5
  obtain ⟨_, s8, h6, h⟩ := bind_ok h
  have e8 := consoleLog_ok h6
  have henv : s5.env = s1.env := by rw [f5.env, f4.env, e3]; rfl
  have hvt2 : vt = s1.self.votingHandle := by rw [hvt, e3]; rfl
  subst hvt2 hrec hs7 e8 hs6
  rw [henv] at hid
  by_cases hsc : script ≠ EMPTY_CALLS_SCRIPT
  · rw [if_pos hsc] at h ⊢
    simp [-bind_pure_comp] at h
    refine ⟨h.1.symm, s5.trace, context, voteId, hid, ?_⟩
    rw [← h.2]
    simp
  · rw [if_neg hsc] at h ⊢
    simp at h
    refine ⟨h.1.symm, s5.trace, context, voteId, hid, ?_⟩
    rw [← h.2]
    simp

theorem newVote_ok (script rawJustification submitter : String) (s s2 : State) (v : Val)
    (h : (newVote script rawJustification submitter).run s = (Except.ok v, s2)) :
    v = Val.undefined ∧
    ∃ (history : List Event) (context : String) (voteId : Val),
      getEventArgument
        (s.env.receipt history
          (s.self.votingHandle.tx "newVote" [Val.str script, Val.str context] (some submitter)))
        "StartVote" "voteId" false = Except.ok voteId ∧
      s2.trace = history ++
        [Event.send (s.self.votingHandle.tx "newVote" [Val.str script, Val.str context]
            (some submitter)),
          Event.log ("Created vote with proposal ID #" ++ voteId.toStr ++ "!")] ++
        (if script ≠ EMPTY_CALLS_SCRIPT then
          [Event.log ("\nRemember script submitted for future execution: " ++ script)]
        else []) := by
  simp only [newVote, bind_assoc, pure_bind, Instance.stake] at h
  obtain ⟨col, s3, h1, h⟩ := bind_ok h
  have f3 : Frame [] s s3 := (quiet_collateralRequirement (by decide) (by decide)).frame h1
  by_cases hc : col.actionCollateral > 0
  · rw [if_pos hc] at h
    obtain ⟨_, s4, h2, h⟩ := bind_ok h
    have e4 := consoleLog_ok h2
    obtain ⟨staking, s5, h3, h⟩ := bind_ok h
    have f5 : Frame [] s4 s5 :=
      (quiet_stakingPool (by decide) (by decide) (by decide) _).frame h3
    obtain ⟨_, s6, h4, h⟩ := bind_ok h
    have f6 : Frame [] s5 s6 := (quiet_approveToken (by decide) (by decide) _ _ _ _).frame h4
    obtain ⟨_, s7, h5, h⟩ := bind_ok h
    obtain ⟨_, hs7⟩ := send_ok h5
    have henv : s7.env = s.env := by rw [hs7, State.push_env, f6.env, f5.env, e4]; exact f3.env
    have hvt : s7.self.votingHandle = s.self.votingHandle := by
      rw [hs7, State.push_self, f6.votingHandle, f5.votingHandle, e4]
      exact f3.votingHandle
    have hr := newVote_submit_ok script rawJustification submitter s7 s2 v
      (by simpa only [bind_assoc, pure_bind] using h)
    rw [henv, hvt] at hr
    exact hr
  · rw [if_neg hc] at h
    have hr := newVote_submit_ok script rawJustification submitter s3 s2 v
      (by simpa only [bind_assoc, pure_bind] using h)
    rw [f3.env, f3.votingHandle] at hr
    exact hr

theorem run_eq_of_fst {α : Type} {m : M α} {s : State} {r : Except Error α}
    (h : (m.run s).1 = r) : m.run s = (r, (m.run s).2) := by
  rw [← h]

theorem undefined_of_bind {α : Type} {m : M α} {f : α → M Val}
    (hf : ∀ a s1 v, ((f a).run s1).1 = Except.ok v → v = Val.undefined) (s : State) (v : Val)
    (h : ((m >>= f).run s).1 = Except.ok v) : v = Val.undefined := by
  obtain ⟨a, s1, _, h2⟩ := bind_ok (run_eq_of_fst h)
  exact hf a s1 v (by rw [h2])

theorem undefined_of_newVote (script rawJustification submitter : String) (s : State) (v : Val)
    (h : ((newVote script rawJustification submitter).run s).1 = Except.ok v) :
    v = Val.undefined :=
  (newVote_ok script rawJustification submitter s _ v (run_eq_of_fst h)).1

/-- C8, as stated, fails: at the sample state `newVote` for a poll completes, the receipt
of the `newVote` transaction carries a `StartVote` log with `voteId` 7 (printed on the
console), and the value returned to the caller is `undefined`, not 7. -/
theorem newVote_does_not_return_vote_id :
    ((newVote EMPTY_CALLS_SCRIPT "Fund grant" sampleAccount).run (sampleState 0 0)).1
      = Except.ok Val.undefined ∧
    ((newVote EMPTY_CALLS_SCRIPT "Fund grant" sampleAccount).run (sampleState 0 0)).1
      ≠ Except.ok (Val.num 7) ∧
    getEventArgument ((sampleState 0 0).env.receipt [] ((sampleState 0 0).self.votingHandle.tx
      "newVote" [Val.str EMPTY_CALLS_SCRIPT, Val.str (utf8ToHex "Fund grant")] (some sampleAccount)))
      "StartVote" "voteId" false = Except.ok (Val.num 7) ∧
    ((newVote EMPTY_CALLS_SCRIPT "Fund grant" sampleAccount).run (sampleState 0 0)).2.trace.getLast?
      = some (Event.log "Created vote with proposal ID #7!") := by
  refine ⟨rfl, ?_, rfl, ?_⟩
  · intro h
    have h2 : ((newVote EMPTY_CALLS_SCRIPT "Fund grant" sampleAccount).run (sampleState 0 0)).1
        = Except.ok Val.undefined := rfl
    rw [h2] at h
    cases h
  · decide

/-- C8, amended: whenever `newVote(script, justification, submitter)` completes, the value
returned to the caller is `undefined`; the vote ID, the `voteId` argument of the
`StartVote` log in the receipt of the `voting.newVote` transaction, is printed on the
console right after that transaction and is not returned.  The operations that delegate
to `newVote` (`newPoll`, `newTokenTransfer`, `upgradeApp`, `changeAgreement`,
`changeVotingSupport`, `changeCourtSettings`) return what it returns, `undefined`. -/
theorem newVote_resolves_to_undefined :
    (∀ (s : State) (script rawJustification submitter : String) (v : Val),
      ((newVote script rawJustification submitter).run s).1 = Except.ok v →
        v = Val.undefined ∧
        ∃ (history : List Event) (context : String) (voteId : Val),
          getEventArgument
            (s.env.receipt history
              (s.self.votingHandle.tx "newVote" [Val.str script, Val.str context] (some submitter)))
            "StartVote" "voteId" false = Except.ok voteId ∧
          ((newVote script rawJustification submitter).run s).2.trace = history ++
            [Event.send (s.self.votingHandle.tx "newVote" [Val.str script, Val.str context]
                (some submitter)),
              Event.log ("Created vote with proposal ID #" ++ voteId.toStr ++ "!")] ++
            (if script ≠ EMPTY_CALLS_SCRIPT then
              [Event.log ("\nRemember script submitted for future execution: " ++ script)]
            else [])) ∧
    (∀ (s : State) (question submitter : String) (v : Val),
      ((newPoll question submitter).run s).1 = Except.ok v → v = Val.undefined) ∧
    (∀ (s : State) (token recipient amount : Val) (justification submitter : String) (v : Val),
      ((newTokenTransfer token recipient amount justification submitter).run s).1 = Except.ok v →
        v = Val.undefined) ∧
    (∀ (s : State) (appId base : Val) (justification submitter : String) (v : Val),
      ((upgradeApp appId base justification submitter).run s).1 = Except.ok v →
        v = Val.undefined) ∧
    (∀ (s : State) (rawContent justification submitter : String) (v : Val),
      ((changeAgreement rawContent justification submitter).run s).1 = Except.ok v →
        v = Val.undefined) ∧
    (∀ (s : State) (support : Val) (justification submitter : String) (v : Val),
      ((changeVotingSupport support justification submitter).run s).1 = Except.ok v →
        v = Val.undefined) ∧
    (∀ (s : State) (termId : Val) (justification submitter : String) (v : Val),
      ((changeCourtSettings termId justification submitter).run s).1 = Except.ok v →
        v = Val.undefined) := by
  refine ⟨?_, ?_, ?_, ?_, ?_, ?_, ?_⟩
  · intro s script rawJustification submitter v h
    exact newVote_ok script rawJustification submitter s _ v (run_eq_of_fst h)
  · intro s question submitter v h
    exact undefined_of_bind (fun _ s1 v => undefined_of_newVote _ _ _ s1 v) s v h
  · intro s token recipient amount justification submitter v h
    exact undefined_of_bind (fun _ s1 v => undefined_of_bind (fun _ s2 v =>
      undefined_of_bind (fun _ s3 v => undefined_of_newVote _ _ _ s3 v) s2 v) s1 v) s v h
  · intro s appId base justification submitter v h
    exact undefined_of_bind (fun _ s1 v => undefined_of_bind (fun _ s2 v =>
      undefined_of_newVote _ _ _ s2 v) s1 v) s v h
  · intro s rawContent justification submitter v h
    exact undefined_of_bind (fun _ s1 v => undefined_of_bind (fun _ s2 v =>
      undefined_of_bind (fun _ s3 v => undefined_of_bind (fun _ s4 v =>
        undefined_of_bind (fun _ s5 v => undefined_of_newVote _ _ _ s5 v) s4 v) s3 v) s2 v) s1 v)
      s v h
  · intro s support justification submitter v h
    exact undefined_of_bind (fun _ s1 v => undefined_of_bind (fun _ s2 v =>
      undefined_of_bind (fun _ s3 v => undefined_of_newVote _ _ _ s3 v) s2 v) s1 v) s v h
  · intro s termId justification submitter v h
    exact undefined_of_bind (fun _ s1 v => undefined_of_bind (fun _ s2 v =>
      undefined_of_bind (fun _ s3 v => undefined_of_bind (fun _ s4 v =>
        undefined_of_newVote _ _ _ s4 v) s3 v) s2 v) s1 v) s v h


/-! ## `newVote` without collateral -/

theorem agreement_operations {s s1 : State} {r : Except Error Instance}
    (h : agreement.run s = (r, s1)) :
    s1.trace.filter Event.isOperation = s.trace.filter Event.isOperation := by
  have h1 := run_bind_agreement (fun a => pure a) s
  rw [bind_pure, h] at h1
  cases hv : s.self._agreement with
  | some cached =>
    rw [hv] at h1
    simp at h1
    rw [h1.2]
  | none =>
    rw [hv] at h1
    simp only [run_pure] at h1
    split_ifs at h1 <;> simp at h1 <;> rw [h1.2] <;> simp [Event.isOperation]

theorem voting_operations {s s1 : State} {r : Except Error Instance}
    (h : voting.run s = (r, s1)) :
    s1.trace.filter Event.isOperation = s.trace.filter Event.isOperation := by
  have h1 := run_bind_voting (fun a => pure a) s
  rw [bind_pure, h] at h1
  cases hv : s.self._voting with
  | some cached =>
    rw [hv] at h1
    simp at h1
    rw [h1.2]
  | none =>
    rw [hv] at h1
    simp only [run_pure] at h1
    split_ifs at h1 <;> simp at h1 <;> rw [h1.2] <;> simp [Event.isOperation]

theorem run_loadJustification_literal (s : State) (justification submitter : String)
    (h : endsWith justification ".md" = false) :
    (_loadJustification justification submitter).run s =
      (Except.ok (utf8ToHex justification),
        s.push (Event.log ("Sending justification as plain text: " ++ justification))) := by
  simp [-bind_pure_comp, _loadJustification, h]

theorem newVote_without_collateral_ok (s s2 : State) (script justification submitter : String)
    (v : Val) (hcol : s.requirement.actionAmount = 0)
    (hj : endsWith justification ".md" = false)
    (hrun : (newVote script justification submitter).run s = (Except.ok v, s2)) :
    s2.trace.filter Event.isOperation = s.trace.filter Event.isOperation ++ s.requirementReads ++
      [Event.send (s.self.votingHandle.tx "newVote"
        [Val.str script, Val.str (utf8ToHex justification)] (some submitter))] := by
  simp only [newVote, collateralRequirement, bind_assoc, pure_bind, Instance.getDisputableInfo,
    Instance.getCollateralRequirement, Instance.newVote] at hrun
  obtain ⟨ag, s3, h1, k1⟩ := bind_ok hrun
  have hag := agreement_ok h1
  have f3 : Frame [] s s3 := (quiet_agreement _).frame h1
  have o3 := agreement_operations h1
  subst hag
  obtain ⟨x, s4, h2, k2⟩ := bind_ok k1
  obtain ⟨hx, hs4⟩ := getState_ok h2
  subst hx hs4
  obtain ⟨id, s5, h3, k3⟩ := bind_ok k2
  obtain ⟨hid, hs5⟩ := view_ok h3
  obtain ⟨req, s6, h4, k4⟩ := bind_ok k3
  obtain ⟨hreq, hs6⟩ := view_ok h4
  obtain ⟨tok, s7, h5, k5⟩ := bind_ok k4
  obtain ⟨_, hs7⟩ := getInstance_ok h5
  subst hs5 hs6 hs7
  simp only [State.push_env, f3.env, f3.config] at hid hreq
  subst hid
  have hreq2 : req = s.requirement := hreq
  subst hreq2
  have hnot : ¬ s.requirement.actionAmount > 0 := by omega
  rw [if_neg hnot] at k5
  obtain ⟨_, s8, h6, k6⟩ := bind_ok k5
  have e8 := consoleLog_ok h6
  obtain ⟨vt, s9, h7, k7⟩ := bind_ok k6
  have hvt := voting_ok h7
  have o9 := voting_operations h7
  obtain ⟨ctx, s10, h8, k8⟩ := bind_ok k7
  rw [run_loadJustification_literal _ _ _ hj] at h8
  simp only [Prod.mk.injEq, Except.ok.injEq] at h8
  obtain ⟨hctx, hs10⟩ := h8
  obtain ⟨receipt, s11, h9, k9⟩ := bind_ok k8
  obtain ⟨_, hs11⟩ := send_ok h9
  obtain ⟨voteId, s12, h10, k10⟩ := bind_ok k9
  obtain ⟨_, hs12⟩ := liftExcept_ok h10
  obtain ⟨_, s13, h11, k11⟩ := bind_ok k10
  have e13 := consoleLog_ok h11
  have hs2 : s2.trace.filter Event.isOperation = s13.trace.filter Event.isOperation := by
    by_cases hsc : script ≠ EMPTY_CALLS_SCRIPT
    · rw [if_pos hsc] at k11
      simp [-bind_pure_comp] at k11
      rw [← k11.2]
      simp [Event.isOperation]
    · rw [if_neg hsc] at k11
      simp at k11
      rw [← k11.2]
  subst e8
  rw [hs2, e13, hs12, hs11, ← hs10, ← hctx, hvt]
  simp [Event.isOperation, o9, o3, f3.config, State.requirementReads, State.push_self,
    f3.votingHandle]

theorem agreement_completes {β : Type} {f : Instance → M β} {s : State} {r : Except Error β}
    (hr : ∀ h e, s.env.rejects h e = false)
    (hf : ∀ s1, s1.env = s.env → s1.self.config = s.self.config →
      s1.self.votingHandle = s.self.votingHandle → ((f s.self.agreementHandle).run s1).1 = r) :
    ((agreement >>= f).run s).1 = r := by
  rw [run_bind_agreement]
  cases hv : s.self._agreement with
  | some cached => exact hf s rfl rfl rfl
  | none =>
    simp only [hr, Bool.false_eq_true, if_false]
    exact hf _ rfl rfl (by simp [ANDAO.votingHandle])

theorem voting_completes {β : Type} {f : Instance → M β} {s : State} {r : Except Error β}
    (hr : ∀ h e, s.env.rejects h e = false)
    (hf : ∀ s1, s1.env = s.env → ((f s.self.votingHandle).run s1).1 = r) :
    ((voting >>= f).run s).1 = r := by
  rw [run_bind_voting]
  cases hv : s.self._voting with
  | some cached => exact hf s rfl
  | none =>
    simp only [hr, Bool.false_eq_true, if_false]
    exact hf _ rfl

theorem collateralRequirement_ok {s s1 : State} {col : Collateral}
    (h : collateralRequirement.run s = (Except.ok col, s1)) :
    col.actionCollateral = s.requirement.actionAmount := by
  simp only [collateralRequirement, bind_assoc, pure_bind, Instance.getDisputableInfo,
    Instance.getCollateralRequirement] at h
  obtain ⟨ag, s3, h1, k1⟩ := bind_ok h
  have hag := agreement_ok h1
  have f3 : Frame [] s s3 := (quiet_agreement _).frame h1
  subst hag
  obtain ⟨x, s4, h2, k2⟩ := bind_ok k1
  obtain ⟨hx, hs4⟩ := getState_ok h2
  subst hx hs4
  obtain ⟨id, s5, h3, k3⟩ := bind_ok k2
  obtain ⟨hid, hs5⟩ := view_ok h3
  obtain ⟨req, s6, h4, k4⟩ := bind_ok k3
  obtain ⟨hreq, hs6⟩ := view_ok h4
  obtain ⟨tok, s7, h5, k5⟩ := bind_ok k4
  subst hs5 hs6
  simp only [State.push_env, f3.env, f3.config] at hid hreq
  subst hid
  have hreq2 : req = s.requirement := hreq
  subst hreq2
  simp only [run_pure, Prod.mk.injEq, Except.ok.injEq] at k5
  rw [← k5.1]

theorem newVote_without_collateral_quiet (s : State)
    (script justification submitter : String) (methods : List String)
    (hcol : s.requirement.actionAmount = 0)
    (h1 : "getDisputableInfo" ∉ methods) (h2 : "getCollateralRequirement" ∉ methods)
    (h3 : "newVote" ∉ methods) :
    Frame methods s ((newVote script justification submitter).run s).2 := by
  have hq := quiet_collateralRequirement h1 h2
  simp only [newVote, bind_assoc, pure_bind, Instance.newVote]
  rw [run_bind]
  rcases hc : collateralRequirement.run s with ⟨r, s1⟩
  have f1 := hq.frame hc
  cases r with
  | error e => exact f1
  | ok col =>
    have hz := collateralRequirement_ok hc
    have hnot : ¬ col.actionCollateral > 0 := by omega
    simp only [hnot, if_false]
    refine f1.trans ?_
    have hrest : Quiet methods (do
        consoleLog "Creating proposal..."
        let voting ← voting
        let context ← _loadJustification justification submitter
        let receipt ← send (voting.tx "newVote" [Val.str script, Val.str context] (some submitter))
        let voteId ← liftExcept (getEventArgument receipt "StartVote" "voteId" false)
        consoleLog ("Created vote with proposal ID #" ++ voteId.toStr ++ "!")
        if script ≠ EMPTY_CALLS_SCRIPT then do
          consoleLog ("\nRemember script submitted for future execution: " ++ script)
          pure Val.undefined
        else pure Val.undefined : M Val) := by
      refine quiet_bind (quiet_consoleLog _ _) (fun _ => ?_)
      refine quiet_bind (quiet_voting _) (fun _ => ?_)
      refine quiet_bind (quiet_loadJustification _ _ _) (fun _ => ?_)
      refine quiet_bind (quiet_send _ h3) (fun _ => ?_)
      refine quiet_bind (quiet_liftExcept _ _) (fun _ => ?_)
      refine quiet_bind (quiet_consoleLog _ _) (fun _ => ?_)
      apply quiet_ite
      · exact quiet_bind (quiet_consoleLog _ _) (fun _ => quiet_pure _ _)
      · exact quiet_pure _ _
    exact hrest s1

theorem eventArgument_completes {β : Type} {f : Val → M β} {s : State} {receipt : Receipt}
    {event arg : String} {decode : Bool} {r : Except Error β}
    (h : ∃ value, getEventArgument receipt event arg decode = Except.ok value)
    (hf : ∀ value, ((f value).run s).1 = r) :
    ((liftExcept (getEventArgument receipt event arg decode) >>= f).run s).1 = r := by
  obtain ⟨value, hv⟩ := h
  rw [run_bind_liftExcept, hv]
  exact hf value

theorem newVote_without_collateral_completes (s : State)
    (script justification submitter : String)
    (hcol : s.requirement.actionAmount = 0)
    (hj : endsWith justification ".md" = false)
    (hr : ∀ h e, s.env.rejects h e = false)
    (hrec : ∀ h c, ∃ voteId,
      getEventArgument (s.env.receipt h c) "StartVote" "voteId" false = Except.ok voteId) :
    ((newVote script justification submitter).run s).1 = Except.ok Val.undefined := by
  simp only [newVote, collateralRequirement, bind_assoc, pure_bind, Instance.getDisputableInfo,
    Instance.getCollateralRequirement, Instance.newVote]
  apply agreement_completes hr
  intro s1 he hc hv
  have hnot : ¬ (s.env.chain.getCollateralRequirement s.self.agreementHandle.address
      s.self.config.voting (s.env.chain.currentCollateralRequirementId
        s.self.agreementHandle.address s.self.config.voting)).actionAmount > 0 := by
    have := hcol
    simp only [State.requirement] at this
    omega
  simp only [run_bind_getState, run_bind_view, run_bind_getInstance, run_bind_consoleLog,
    State.push_env, State.push_self, he, hc, hr, Bool.false_eq_true, if_false, hnot]
  apply voting_completes (by simpa [he] using hr)
  intro s2 he2
  simp only [State.push_env, he] at he2
  rw [run_bind, run_loadJustification_literal _ _ _ hj]
  simp only [run_bind_send, State.push_env, he2, hr, Bool.false_eq_true, if_false]
  apply eventArgument_completes (hrec _ _)
  intro voteId
  by_cases hsc : script ≠ EMPTY_CALLS_SCRIPT
  · rw [if_pos hsc]
    simp [-bind_pure_comp]
  · rw [if_neg hsc]
    simp [-bind_pure_comp]

/-- C7: when the collateral requirement read has `actionAmount = 0` and the justification
does not end in `.md`, every run of `newVote` that completes has made exactly these
operations on contracts, file system and pinner: the two views of
`collateralRequirement()` and then the transaction `voting.newVote(script,
utf8ToHex(justification))` from the submitter; so no staking-pool lookup, no allowance
read, no approval, no stake, no file check and no upload.  No run at all, completed or
not, makes a staking-pool lookup, an allowance read, an approval or a stake.  The run
completes whenever nothing rejects and the receipt carries a `StartVote` log. -/
theorem newVote_without_collateral (s : State) (script justification submitter : String)
    (hcol : s.requirement.actionAmount = 0)
    (hj : endsWith justification ".md" = false) :
    (∀ v, ((newVote script justification submitter).run s).1 = Except.ok v →
      ((newVote script justification submitter).run s).2.trace.filter Event.isOperation =
        s.trace.filter Event.isOperation ++ s.requirementReads ++
        [Event.send (s.self.votingHandle.tx "newVote"
          [Val.str script, Val.str (utf8ToHex justification)] (some submitter))]) ∧
    ((newVote script justification submitter).run s).2.trace.filter
        (Event.callsOneOf
          ["stakingFactory", "getInstance", "getOrCreateInstance", "allowance", "approve", "stake"]) =
      s.trace.filter
        (Event.callsOneOf
          ["stakingFactory", "getInstance", "getOrCreateInstance", "allowance", "approve", "stake"]) ∧
    ((∀ h e, s.env.rejects h e = false) →
      (∀ h c, ∃ voteId,
        getEventArgument (s.env.receipt h c) "StartVote" "voteId" false = Except.ok voteId) →
      ((newVote script justification submitter).run s).1 = Except.ok Val.undefined) :=
  ⟨fun v h => newVote_without_collateral_ok s _ script justification submitter v hcol hj
      (run_eq_of_fst h),
    (newVote_without_collateral_quiet s script justification submitter _ hcol (by decide)
      (by decide) (by decide)).calls,
    newVote_without_collateral_completes s script justification submitter hcol hj⟩

/-- C7 at the sample state (collateral 0) for the literal justification `Fund grant`: the
operations are the two reads and the `newVote` transaction with the text hex-encoded. -/
theorem newVote_without_collateral_witness :
    ((newVote EMPTY_CALLS_SCRIPT "Fund grant" sampleAccount).run (sampleState 0 0)).2.trace.filter
        Event.isOperation =
      [Event.view (Instance.call ⟨"Agreement", "0x00000000000000000000000000000000000000a6"⟩
          "getDisputableInfo" [Val.str "0x00000000000000000000000000000000000000d7"]),
        Event.view (Instance.call ⟨"Agreement", "0x00000000000000000000000000000000000000a6"⟩
          "getCollateralRequirement"
          [Val.str "0x00000000000000000000000000000000000000d7", Val.num 1]),
        Event.send (Instance.tx ⟨"DisputableVoting", "0x00000000000000000000000000000000000000d7"⟩
          "newVote" [Val.str "0x00000001", Val.str "0x46756e64206772616e74"]
          (some sampleAccount))] :=
  (newVote_without_collateral (sampleState 0 0) EMPTY_CALLS_SCRIPT "Fund grant" sampleAccount
    rfl (by decide)).1 Val.undefined rfl

end Andao
